import Mathlib

/-!
Verification development for the sleep-analysis log parser
(`sleep_analysis/log_parser.py`).

The Python source is shallowly embedded:

* strings are `String` / `List Char`; Python `str.strip`, `str.split`,
  `str.replace('\t', ...)` and friends are re-implemented character by
  character (inputs in this file are ASCII, so the ASCII whitespace /
  digit / alpha classes coincide with Python's);
* Python floats are modelled as exact rationals `ℚ` in the parser
  (every numeral appearing in the claims is exactly representable) and
  as real numbers `ℝ` inside the statistics layer, where `math.sin`,
  `math.cos`, `math.atan2` and `math.sqrt` are modelled by the real
  functions (`Complex.arg` for `atan2`);
* `datetime.date` is modelled by a `Date` structure plus proleptic
  Gregorian ordinal arithmetic (`dateToOrd` / `dateOfOrd`, the standard
  civil-from-days / days-from-civil algorithms), `datetime.time` by a
  pair of naturals;
* a raised Python exception is an `Except.error` carrying the message;
  `pandas.to_datetime` (an external library call) is an explicit
  function parameter `pdp : String → Option Time` of the embeddings
  that use it, `none` meaning "raises";
* a `pandas.DataFrame` of daily records is a `List Rec`; the one-row
  statistics frames are association lists `Frame = List (String × Cell)`
  whose cells are floats, strings or nulls, mirroring the dtype rules
  the code relies on (an all-float column is numeric, anything
  containing a string or a `None` has dtype `object`).
-/

/-! ### Python string primitives -/

/-- ASCII whitespace, the characters Python's `str.strip()` / `str.split()`
    treat as separators on ASCII input. -/
def isWS (c : Char) : Bool :=
  c = ' ' || c = '\t' || c = '\n' || c = '\r' || c = '\x0b' || c = '\x0c'

/-- Model of `str.strip()` on a character list. -/
def stripChars (cs : List Char) : List Char :=
  ((cs.dropWhile isWS).reverse.dropWhile isWS).reverse

/-- Model of `str.strip()`. -/
def pyStrip (s : String) : String := String.mk (stripChars s.data)

/-- Helper for `str.split()`: accumulate the current token (reversed). -/
def wsTokensAux : List Char → List Char → List (List Char)
  | [], acc => if acc = [] then [] else [acc.reverse]
  | c :: cs, acc =>
      if isWS c then
        if acc = [] then wsTokensAux cs [] else acc.reverse :: wsTokensAux cs []
      else wsTokensAux cs (c :: acc)

/-- Model of `str.split()` with no separator: tokens between runs of whitespace. -/
def wsTokens (cs : List Char) : List String :=
  (wsTokensAux cs []).map String.mk

/-- Model of `line.replace('\t', '    ')`. -/
def expandTabs : List Char → List Char
  | [] => []
  | c :: cs => (if c = '\t' then [' ', ' ', ' ', ' '] else [c]) ++ expandTabs cs

/-- Number of leading `' '` characters (the indent computation of
    `parse_log`, applied after tab expansion). -/
def leadingSpaces (cs : List Char) : ℕ := (cs.takeWhile (· = ' ')).length

/-- Model of `stripped.startswith('...')`. -/
def startsWithDots : List Char → Bool
  | '.' :: '.' :: '.' :: _ => true
  | _ => false

/-- Split at the first `'?'`: `stripped.split('?', 1)`.  Returns the part
    before and the part after the first `'?'` (the caller only invokes it
    when a `'?'` is present; with none present the whole input is the
    first component, as in Python). -/
def splitFirstQ : List Char → (List Char × List Char)
  | [] => ([], [])
  | c :: cs =>
      if c = '?' then ([], cs)
      else
        let r := splitFirstQ cs
        (c :: r.1, r.2)

/-- Parse a nonempty all-digit string as a natural number. -/
def digitsToNat (cs : List Char) : ℕ :=
  cs.foldl (fun a c => 10 * a + (c.toNat - '0'.toNat)) 0

/-- Model of `str.split(':')` on a character list (all occurrences, empty parts
    kept, as in Python). -/
def splitColonAux : List Char → List Char → List (List Char)
  | [], acc => [acc.reverse]
  | c :: cs, acc =>
      if c = ':' then acc.reverse :: splitColonAux cs []
      else splitColonAux cs (c :: acc)

def splitColon (cs : List Char) : List (List Char) := splitColonAux cs []

/-- Digit run accumulator for `re.findall(r"\d+", line)`. -/
def findIntsAux : List Char → List Char → List ℕ
  | [], acc => if acc = [] then [] else [digitsToNat acc.reverse]
  | c :: cs, acc =>
      if c.isDigit then findIntsAux cs (c :: acc)
      else if acc = [] then findIntsAux cs []
      else digitsToNat acc.reverse :: findIntsAux cs []

/-- Model of `[int(n) for n in re.findall(r"\d+", line)]`. -/
def findAllInts (cs : List Char) : List ℕ := findIntsAux cs []

/-- Zero-padded two-digit rendering, Python's `f"{n:02d}"` for `n ≥ 0`. -/
def pad2 (n : ℕ) : String := (if n < 10 then "0" else "") ++ toString n

/-! ### Python `float()` (exact-decimal model)

Python's `float()` parses a decimal literal (optional sign, digits with
an optional point, optional exponent) and raises `ValueError` otherwise.
We model the accepted value exactly as a rational; the claims only ever
evaluate it on short decimal literals, where the binary double is not
distinguished by any statement proved here.  (Exotic inputs accepted by
CPython — `"inf"`, `"nan"`, underscore separators — are not modelled;
no claim involves them.) -/

/-- Optional `+`/`-` sign; returns (sign, rest). -/
def takeSign : List Char → (Bool × List Char)
  | '+' :: cs => (false, cs)
  | '-' :: cs => (true, cs)
  | cs => (false, cs)

/-- Model of `float(s)` as `Option ℚ` (`none` = `ValueError`). -/
def pyFloat (s : String) : Option ℚ :=
  let cs := stripChars s.data
  let (neg, cs) := takeSign cs
  let intPart := cs.takeWhile Char.isDigit
  let rest := cs.dropWhile Char.isDigit
  let (fracPart, rest) :=
    match rest with
    | '.' :: r => (r.takeWhile Char.isDigit, r.dropWhile Char.isDigit)
    | r => ([], r)
  if intPart = [] ∧ fracPart = [] then none
  else
    -- the represented value, written as one exact fraction
    -- (sign · (I·10^f + F) · 10^max(e,0)) / (10^f · 10^max(-e,0))
    let mantNum : ℤ := digitsToNat intPart * 10 ^ fracPart.length + digitsToNat fracPart
    let mantDen : ℕ := 10 ^ fracPart.length
    let sgn : ℤ := if neg then -1 else 1
    match rest with
    | [] => some (Rat.divInt (sgn * mantNum) mantDen)
    | 'e' :: r => pyFloatExp sgn mantNum mantDen r
    | 'E' :: r => pyFloatExp sgn mantNum mantDen r
    | _ => none
where
  /-- Exponent part `[+-]?digits`. -/
  pyFloatExp (sgn mantNum : ℤ) (mantDen : ℕ) (r : List Char) : Option ℚ :=
    let (eneg, r) := takeSign r
    let eDigits := r.takeWhile Char.isDigit
    if eDigits = [] ∨ r.dropWhile Char.isDigit ≠ [] then none
    else
      let e : ℕ := digitsToNat eDigits
      some (if eneg then Rat.divInt (sgn * mantNum) (mantDen * 10 ^ e)
            else Rat.divInt (sgn * mantNum * 10 ^ e) mantDen)

/-! ### Clock times and calendar dates -/

/-- Model of `datetime.time`: hour and minute (the code never sets seconds). -/
structure Time where
  hour : ℕ
  minute : ℕ
deriving DecidableEq, Repr

/-- Model of `datetime.time(h, m)` including its range validation
    (`ValueError` outside `0 ≤ h ≤ 23`, `0 ≤ m ≤ 59` becomes `none`). -/
def mkTimeOpt (h m : ℕ) : Option Time :=
  if h ≤ 23 ∧ m ≤ 59 then some ⟨h, m⟩ else none

/-- Minutes since midnight. -/
def timeMinutes (t : Time) : ℕ := t.hour * 60 + t.minute

/-- Model of `datetime.date`. -/
structure Date where
  year : ℕ
  month : ℕ
  day : ℕ
deriving DecidableEq, Repr

def isLeap (y : ℕ) : Bool := (y % 4 = 0 && y % 100 ≠ 0) || y % 400 = 0

def daysInMonth (y m : ℕ) : ℕ :=
  if m = 2 then (if isLeap y then 29 else 28)
  else if m = 4 ∨ m = 6 ∨ m = 9 ∨ m = 11 then 30
  else 31

/-- Model of `datetime.date(y, m, d)` with CPython's validation order and
    error messages (year, then month, then day). -/
def mkDateE (y m d : ℕ) : Except String Date :=
  if ¬(1 ≤ y ∧ y ≤ 9999) then .error ("year " ++ toString y ++ " is out of range")
  else if ¬(1 ≤ m ∧ m ≤ 12) then .error "month must be in 1..12"
  else if ¬(1 ≤ d ∧ d ≤ daysInMonth y m) then .error "day is out of range for month"
  else .ok ⟨y, m, d⟩

/-- Days-from-civil (proleptic Gregorian ordinal, epoch 1970-01-01);
    floored integer division throughout. -/
def dateToOrd (dt : Date) : ℤ :=
  let y : ℤ := (dt.year : ℤ) - (if dt.month ≤ 2 then 1 else 0)
  let m : ℤ := dt.month
  let d : ℤ := dt.day
  let era : ℤ := y.fdiv 400
  let yoe : ℤ := y - era * 400
  let doy : ℤ := (153 * (m + (if 2 < m then -3 else 9)) + 2).fdiv 5 + d - 1
  let doe : ℤ := yoe * 365 + yoe.fdiv 4 - yoe.fdiv 100 + doy
  era * 146097 + doe - 719468

/-- Civil-from-days, inverse of `dateToOrd` on valid dates. -/
def dateOfOrd (z0 : ℤ) : Date :=
  let z : ℤ := z0 + 719468
  let era : ℤ := z.fdiv 146097
  let doe : ℤ := z - era * 146097
  let yoe : ℤ := (doe - doe.fdiv 1460 + doe.fdiv 36524 - doe.fdiv 146096).fdiv 365
  let y : ℤ := yoe + era * 400
  let doy : ℤ := doe - (365 * yoe + yoe.fdiv 4 - yoe.fdiv 100)
  let mp : ℤ := (5 * doy + 2).fdiv 153
  let d : ℤ := doy - (153 * mp + 2).fdiv 5 + 1
  let m : ℤ := mp + (if mp < 10 then 3 else -9)
  ⟨(y + (if m ≤ 2 then 1 else 0)).toNat, m.toNat, d.toNat⟩

/-- Model of `date + timedelta(days=i)`. -/
def addDays (dt : Date) (i : ℕ) : Date := dateOfOrd (dateToOrd dt + i)

/-- Python `date` ordering (lexicographic on year, month, day). -/
def dateLe (a b : Date) : Bool :=
  a.year < b.year ∨
  (a.year = b.year ∧ (a.month < b.month ∨ (a.month = b.month ∧ a.day ≤ b.day)))

def dateInsert (d : Date) : List Date → List Date
  | [] => [d]
  | e :: es => if dateLe d e then d :: e :: es else e :: dateInsert d es

/-- Model of `sorted` on dates. -/
def sortDates : List Date → List Date
  | [] => []
  | d :: ds => dateInsert d (sortDates ds)

/-- Model of `repr(datetime.date(y, m, d))`. -/
def pyDateRepr (d : Date) : String :=
  "datetime.date(" ++ toString d.year ++ ", " ++ toString d.month ++ ", "
    ++ toString d.day ++ ")"

/-- Model of `str` of a Python list of dates, as interpolated into the
    duplicate-date error message. -/
def pyDateListRepr (ds : List Date) : String :=
  "[" ++ String.intercalate ", " (ds.map pyDateRepr) ++ "]"

/-! ### The two regular expressions

`_TIME_RE = ^(\d{1,2})(?::(\d{2}))?(am|pm)?$` (case-insensitive) and
`_WEEK_HEADER_RE = ^(?:[A-Za-z]{3})?\d{1,2}/\d{1,2}-(?:[A-Za-z]{3})?(?:\d{1,2}/)?\d{1,2}$`.
Both are hand-compiled to deterministic matchers; the only
backtracking point (`(?:\d{1,2}/)?` before the final day) is expanded
into its two alternatives explicitly. -/

inductive AmPm | am | pm
deriving DecidableEq, Repr

/-- Case-insensitive `(am|pm)?$`. -/
def matchAmPmEnd : List Char → Option (Option AmPm)
  | [] => some none
  | [a, m] =>
      if (a = 'a' ∨ a = 'A') ∧ (m = 'm' ∨ m = 'M') then some (some .am)
      else if (a = 'p' ∨ a = 'P') ∧ (m = 'm' ∨ m = 'M') then some (some .pm)
      else none
  | _ => none

/-- Model of `_TIME_RE.match`: on success returns `(hour digits, minute group,
    meridiem group)` exactly as `m.group(1)`, `m.group(2)`, `m.group(3)`. -/
def timeReMatch (cs : List Char) : Option (ℕ × Option ℕ × Option AmPm) :=
  let hd := cs.takeWhile Char.isDigit
  let rest := cs.dropWhile Char.isDigit
  if hd.length < 1 ∨ 2 < hd.length then none
  else
    match rest with
    | ':' :: r =>
        -- the minute group is exactly two digits
        match r with
        | m1 :: m2 :: r2 =>
            if m1.isDigit ∧ m2.isDigit then
              match matchAmPmEnd r2 with
              | some ap => some (digitsToNat hd, some (digitsToNat [m1, m2]), ap)
              | none => none
            else none
        | _ => none
    | _ =>
        match matchAmPmEnd rest with
        | some ap => some (digitsToNat hd, none, ap)
        | none => none

/-- Model of `(?:[A-Za-z]{3})?` followed by a digit: if the line starts with a
    letter there must be exactly three letters, otherwise the group is
    skipped.  (The next token of the pattern is always a digit, so this
    is equivalent to the regex engine's backtracking.) -/
def skipWeekday : List Char → Option (List Char)
  | [] => some []
  | c :: cs =>
      if c.isAlpha then
        match cs with
        | b :: d :: r => if b.isAlpha ∧ d.isAlpha then some r else none
        | _ => none
      else some (c :: cs)

/-- Model of `\d{1,2}` followed by a required literal `k`: greedy and safe because
    the follower is never a digit. -/
def digits12Then (k : Char) (cs : List Char) : Option (List Char) :=
  let ds := cs.takeWhile Char.isDigit
  let rest := cs.dropWhile Char.isDigit
  if 1 ≤ ds.length ∧ ds.length ≤ 2 then
    match rest with
    | c :: r => if c = k then some r else none
    | [] => none
  else none

/-- Model of `(?:\d{1,2}/)?\d{1,2}$`, both alternatives. -/
def finalDaySeg (cs : List Char) : Bool :=
  let ds := cs.takeWhile Char.isDigit
  let rest := cs.dropWhile Char.isDigit
  if ds.length < 1 ∨ 2 < ds.length then false
  else
    match rest with
    | [] => true
    | '/' :: r =>
        let ds2 := r.takeWhile Char.isDigit
        r.dropWhile Char.isDigit = [] ∧ 1 ≤ ds2.length ∧ ds2.length ≤ 2
    | _ => false

/-- Model of `_WEEK_HEADER_RE.match(stripped)` as a Boolean. -/
def weekHeaderMatch (cs : List Char) : Bool :=
  (Option.isSome <| do
    let r1 ← skipWeekday cs
    let r2 ← digits12Then '/' r1
    let r3 ← digits12Then '-' r2
    let r4 ← skipWeekday r3
    if finalDaySeg r4 then some () else none)

/-! ### Value parsers (`_parse_time`, `_parse_duration`)

`pandas.to_datetime` — the permissive fallback reached when the strict
regex does not match — is an external library routine; it enters every
definition as an explicit parameter `fb : String → Option Time`
(`none` = the call raised, which `_parse_time` catches). -/

/-- Model of `_parse_time(value)`.  Total: every internal failure (regex miss and
    fallback failure, or out-of-range minutes in `datetime.time`) is
    caught by the `try`/`except` and becomes `none`. -/
def parse_time (fb : String → Option Time) (v : String) : Option Time :=
  if v = "." ∨ v = "" then none
  else
    let s := pyStrip v
    match timeReMatch s.data with
    | some (h, mm, ap) =>
        let h1 :=
          match ap with
          | some .pm => if h ≠ 12 then h + 12 else h
          | some .am => if h = 12 then 0 else h
          | none => h
        mkTimeOpt (h1 % 24) (mm.getD 0)
    | none => fb s

/-- Model of `_parse_duration(value)`: hours represented by the token, or `none`. -/
def parse_duration (fb : String → Option Time) (v : String) : Option ℚ :=
  if v = "." ∨ v = "" then none
  else
    let s := pyStrip v
    let viaAmPm : Option ℚ :=
      match timeReMatch s.data with
      | some (_, _, some _) =>
          match parse_time fb s with
          | some t => some (Rat.divInt (60 * t.hour + t.minute) 60)
          | none => none
      | _ => none
    match viaAmPm with
    | some q => some q
    | none =>
        match splitColon s.data with
        | [hp, mp] =>
            if hp ≠ [] ∧ hp.all Char.isDigit ∧ mp ≠ [] ∧ mp.all Char.isDigit then
              some (Rat.divInt (60 * digitsToNat hp + digitsToNat mp) 60)
            else pyFloat s
        | _ => pyFloat s

/-! ### Question/column configuration tables -/

def QUESTION_TO_COLUMN : List (String × String) :=
  [("1b. What time start winding down?", "wind_down_start_time"),
   ("1.2b. What time did you get into bed & commit to sleep?", "bed_time"),
   ("2. How long do you estimate it took to fall asleep (minutes)?", "fall_asleep_minutes"),
   ("3. How many times did you wake up during the night?", "night_wake_ups"),
   ("4. In total, how long did these awakenings last (minutes)?", "awake_minutes"),
   ("5. When awake during the night, how long did you spend out of bed (minutes)?", "out_of_bed_minutes"),
   ("6. What time did you wake up?", "wake_up_time"),
   ("7. What time did you get out of bed?", "get_out_of_bed_time"),
   ("8. In TOTAL, how many hours of sleep did you get?", "sleep_hours"),
   ("9. In TOTAL, how many hours did you spend in bed?", "bed_hours"),
   ("10. Quality of your sleep (1-10)?", "sleep_quality"),
   ("11. Did you take naps during the day?", "naps"),
   ("12. Mood during the day (1-10)?", "mood"),
   ("13. Fatigue level during the day (1-10)?", "fatigue"),
   ("14. If alcohol, how many standard drinks?", "alcohol_drinks"),
   ("15. - what type?", "alcohol_type"),
   ("16. - what time?", "alcohol_time"),
   ("17. Second wind?", "second_wind")]

def TIME_COLS : List String :=
  ["wind_down_start_time", "bed_time", "wake_up_time", "get_out_of_bed_time"]

def NUMERIC_COLS : List String :=
  ["fall_asleep_minutes", "night_wake_ups", "awake_minutes", "out_of_bed_minutes",
   "sleep_hours", "bed_hours", "sleep_quality", "naps", "mood", "fatigue",
   "alcohol_drinks"]

def STRING_COLS : List String := ["alcohol_type", "alcohol_time", "second_wind"]

/-- Model of `EXPECTED_TIMES` (only ever indexed by the four time columns). -/
def expectedTime (c : String) : Time :=
  if c = "wind_down_start_time" then ⟨2, 50⟩
  else if c = "bed_time" then ⟨4, 0⟩
  else if c = "wake_up_time" then ⟨11, 30⟩
  else ⟨11, 35⟩

/-- Association-list lookup (Python `dict.get`). -/
def alookup {α : Type} : List (String × α) → String → Option α
  | [], _ => none
  | (k, v) :: kvs, q => if k = q then some v else alookup kvs q

/-- Model of `dict.setdefault(col, parsed_vals)` as a state update: inserts only
    when the key is absent (first occurrence wins). -/
def pySetdefault {α : Type} (d : List (String × α)) (k : String) (v : α) :
    List (String × α) :=
  if (alookup d k).isSome then d else d ++ [(k, v)]

/-! ### Parsed values and daily records -/

/-- A cell value of the daily-record table: a clock time, a float
    (exact rational), a free string, or Python `None`. -/
inductive Value
  | vtime (t : Time)
  | vnum (q : ℚ)
  | vstr (s : String)
  | vnone
deriving DecidableEq, Repr

/-- One daily record: the `{'date': ..., 'week_label': ..., col: value}`
    dictionary emitted by a flush, with the question columns in
    insertion order. -/
structure Rec where
  date : Date
  week : String
  fields : List (String × Value)
deriving DecidableEq, Repr

/-- Parse one answer token for the column `col` (`none` = unmapped
    question).  This is the per-value dispatch of `parse_log`
    (`TIME_COLS` / `STRING_COLS` / `'alcohol_drinks'` / numeric default);
    only the `alcohol_drinks` branch can raise (`float(v)`), every other
    branch resolves failures to `Value.vnone`. -/
def parseTokenE (fb : String → Option Time) (col : Option String) (v : String) :
    Except String Value :=
  match col with
  | some c =>
      if c ∈ TIME_COLS then
        .ok (match parse_time fb v with | some t => .vtime t | none => .vnone)
      else if c ∈ STRING_COLS then
        .ok (if v = "." then .vnone else .vstr v)
      else if c = "alcohol_drinks" then
        if v = "." then .ok (.vnum 0)
        else
          match pyFloat v with
          | some q => .ok (.vnum q)
          | none => .error ("could not convert string to float: '" ++ v ++ "'")
      else
        .ok (match parse_duration fb v with
             | some q => .vnum q
             | none => match pyFloat v with | some q => .vnum q | none => .vnone)
  | none =>
      -- an unmapped question still parses its values (and discards them)
      .ok (match parse_duration fb v with
           | some q => .vnum q
           | none => match pyFloat v with | some q => .vnum q | none => .vnone)

/-! ### `_parse_week_header` -/

/-- The body of `_parse_week_header` applied to the extracted integer
    tokens: fewer than three integers is the `return None` path, a
    `ValueError` raised by `datetime.date` is an `Except.error`. -/
def weekHeaderFromNums (nums : List ℕ) : Except String (Option (String × List Date)) := do
  match nums with
  | sm :: sd :: n3 :: rest =>
      let em := if rest ≠ [] then n3 else sm
      let ed := if rest ≠ [] then rest.headI else n3
      let start ← mkDateE 2025 sm sd
      let end0 ← mkDateE 2025 em ed
      let delta0 : ℤ := dateToOrd end0 - dateToOrd start
      let (_endD, delta) ←
        if delta0 < 0 then do
          let end1 ← mkDateE (2025 + (if em < sm then 1 else 0)) em ed
          pure (end1, dateToOrd end1 - dateToOrd start)
        else pure (end0, delta0)
      let days := (List.range (delta + 1).toNat).map (addDays start)
      let label := pad2 start.month ++ pad2 start.day ++ "-" ++ pad2 em ++ pad2 ed
      pure (some (label, days))
  | _ => pure none

/-- Model of `_parse_week_header(line)`: strip, extract all integer tokens in
    order, then interpret them as month/day pairs. -/
def parse_week_header (line : String) : Except String (Option (String × List Date)) :=
  weekHeaderFromNums (findAllInts (pyStrip line).data)

/-- The week-header recognizer as `parse_log` uses it: the line is
    stripped, gated by `_WEEK_HEADER_RE`, and only on a regex match is
    `_parse_week_header` invoked (whose date errors propagate). -/
def weekHeaderRecognizer (line : String) : Except String (Option (String × List Date)) :=
  let s := pyStrip line
  if weekHeaderMatch s.data then parse_week_header s else .ok none

/-! ### `parse_log` -/

/-- Parser state carried across lines: current week label / day list /
    accumulated per-question value lists, plus the records flushed so
    far. -/
structure PState where
  label : Option String
  days : List Date
  data : List (String × List Value)
  recs : List Rec
deriving Repr

/-- Python truthiness of `week_label` (`None` and `''` are falsy). -/
def labelTruthy : Option String → Bool
  | none => false
  | some s => s ≠ ""

/-- Flush the active week: one record per day index, keeping for each
    accumulated column the value at that index when the column's list is
    long enough (ragged columns are tolerated). -/
def flushRecs (st : PState) : List Rec :=
  st.recs ++ (st.days.enum.map fun (i, day) =>
    ⟨day, (st.label.getD ""),
     st.data.filterMap fun (c, vs) => (vs.get? i).map fun v => (c, v)⟩)

/-- Process one line of the log (one iteration of the `parse_log` loop). -/
def stepLine (fb : String → Option Time) (st : PState) (line : String) :
    Except String PState :=
  let stripped := pyStrip line
  if stripped = "" ∨ startsWithDots stripped.data then .ok st
  else
    let indent := leadingSpaces (expandTabs line.data)
    if weekHeaderMatch stripped.data then do
      let (recs', data') :=
        if labelTruthy st.label ∧ st.days ≠ [] then (flushRecs st, [])
        else (st.recs, st.data)
      let res ← parse_week_header stripped
      match res with
      | some (lbl, days) => .ok ⟨some lbl, days, data', recs'⟩
      | none => .ok ⟨none, [], data', recs'⟩
    else if 4 ≤ indent ∧ labelTruthy st.label then
      if stripped.data.contains '?' then do
        let (qpart, vpart) := splitFirstQ stripped.data
        let question := pyStrip (String.mk (qpart ++ ['?']))
        let values := wsTokens vpart
        let col := alookup QUESTION_TO_COLUMN question
        let parsed ← values.mapM (parseTokenE fb col)
        match col with
        | some c => .ok { st with data := pySetdefault st.data c parsed }
        | none => .ok st
      else .ok st
    else .ok st

/-- Run the line loop and the final flush; the resulting record list is
    the dataframe `parse_log` builds before its duplicate-date check. -/
def buildRecords (fb : String → Option Time) (lines : List String) :
    Except String (List Rec) := do
  let st ← lines.foldlM (stepLine fb) ⟨none, [], [], []⟩
  .ok (if labelTruthy st.label ∧ st.days ≠ [] then flushRecs st else st.recs)

/-- The `dup_set` of the duplicate-date scan, as the sorted list the
    error message interpolates: the dates occurring more than once. -/
def dupDates (recs : List Rec) : List Date :=
  sortDates (((recs.map Rec.date).filter fun d => 2 ≤ (recs.map Rec.date).count d).dedup)

/-- Model of `parse_log` on the list of lines of the file: builds the records,
    then raises `ValueError` if any calendar date is claimed by more
    than one record. -/
def parse_log (fb : String → Option Time) (lines : List String) :
    Except String (List Rec) := do
  let recs ← buildRecords fb lines
  if dupDates recs ≠ [] then
    .error ("Duplicate dates found in log: " ++ pyDateListRepr (dupDates recs))
  else .ok recs

/-! ### Real-number helpers for the statistics layer

`//`, `%`, `int()` and `round()` on Python floats, modelled over `ℝ`.
Python's `round` ties to even (banker's rounding); away from exact
halves it agrees with Mathlib's `round` (nearest, half up). -/

noncomputable def pyFloorDivR (x y : ℝ) : ℝ := (⌊x / y⌋ : ℤ)

noncomputable def pyModR (x y : ℝ) : ℝ := x - y * (⌊x / y⌋ : ℤ)

/-- Model of `int(x)`: truncation toward zero. -/
noncomputable def pyTrunc (x : ℝ) : ℤ := if 0 ≤ x then ⌊x⌋ else -⌊-x⌋

/-- Model of `round(x)`: nearest integer, ties to even. -/
noncomputable def pyRoundEven (x : ℝ) : ℤ :=
  if Int.fract x = 1 / 2 then (if 2 ∣ ⌊x⌋ then ⌊x⌋ else ⌊x⌋ + 1)
  else round x

/-- Model of `math.atan2(y, x)`: the argument of the complex number `x + y·i`,
    in `(-π, π]`, with `atan2(0, 0) = 0`. -/
noncomputable def atan2 (y x : ℝ) : ℝ := Complex.arg ⟨x, y⟩

/-- Step 2–3 of `_avg_time`: minutes mapped to an angle in radians. -/
noncomputable def timeAngle (t : Time) : ℝ :=
  ((timeMinutes t : ℝ) / (24 * 60)) * 2 * Real.pi

noncomputable def sinSum (ts : List Time) : ℝ := (ts.map fun t => Real.sin (timeAngle t)).sum
noncomputable def cosSum (ts : List Time) : ℝ := (ts.map fun t => Real.cos (timeAngle t)).sum

/-- Shared final conversion of a normalized mean angle `θ ∈ [0, 2π)`
    back to a clock time: minutes, floor-div/mod by 60, banker's
    rounding of the minutes, carry of a rounded-up 60. -/
noncomputable def angleToTime (θ : ℝ) : Time :=
  let total := θ * (24 * 60) / (2 * Real.pi)
  let hour : ℤ := (pyTrunc (pyFloorDivR total 60)) % 24
  let minute : ℤ := pyRoundEven (pyModR total 60)
  if minute = 60 then ⟨((hour + 1) % 24).toNat, 0⟩ else ⟨hour.toNat, minute.toNat⟩

/-- Step 7 of `_avg_time`: normalize a negative angle by adding `2π`. -/
noncomputable def normAngle (θ : ℝ) : ℝ := if θ < 0 then θ + 2 * Real.pi else θ

/-- Model of `_avg_time(times)`: circular mean of a list of (optional) clock
    times; `None` entries are dropped, the empty list and a zero
    resultant vector give `None`; otherwise the mean angle
    `atan2(sin_sum/n, cos_sum/n)` is normalized and converted back. -/
noncomputable def avg_time (times : List (Option Time)) : Option Time :=
  if times.filterMap id = [] then none
  else if sinSum (times.filterMap id) = 0 ∧ cosSum (times.filterMap id) = 0 then none
  else
    some (angleToTime (normAngle
      (atan2 (sinSum (times.filterMap id) / (times.filterMap id).length)
             (cosSum (times.filterMap id) / (times.filterMap id).length))))

/-- Modelled from the spec's words (§4.2 `circularMeanTime`): map each
    time to the angle `2π·minutesOfDay/1440`, sum the sine and cosine
    components, return `null` when the input (after dropping nulls) is
    empty or both component sums are exactly zero, otherwise take the
    mean angle `atan2(sin, cos)` of the component sums, normalize to
    `[0, 2π)`, convert back to minutes and round to the nearest minute
    with 60 rolling into the next hour mod 24. -/
noncomputable def circularMeanTime_spec (times : List (Option Time)) : Option Time :=
  if times.filterMap id = [] then none
  else if sinSum (times.filterMap id) = 0 ∧ cosSum (times.filterMap id) = 0 then none
  else
    some (angleToTime (normAngle
      (atan2 (sinSum (times.filterMap id)) (cosSum (times.filterMap id)))))

/-! ### `_median`, `_median_time`, `_std`, `_std_time`, offsets -/

def qInsert (x : ℚ) : List ℚ → List ℚ
  | [] => [x]
  | y :: ys => if x ≤ y then x :: y :: ys else y :: qInsert x ys

/-- Model of `sorted` on floats (here: exact rationals). -/
def qSorted : List ℚ → List ℚ
  | [] => []
  | x :: xs => qInsert x (qSorted xs)

/-- Model of `_median(values)` on an already null-filtered list. -/
def pyMedianQ (values : List ℚ) : Option ℚ :=
  let v := qSorted values
  if v = [] then none
  else
    let mid := v.length / 2
    if v.length % 2 = 1 then some (v.getD mid 0)
    else some ((v.getD (mid - 1) 0 + v.getD mid 0) / 2)

/-- Model of `_median_time(times)`: ordinary median of minutes-of-day, converted
    back to a time (`int` truncates the possible `.5` of an even-length
    median; the values are nonnegative, so truncation is flooring). -/
def median_time (ts : List Time) : Option Time :=
  match pyMedianQ (ts.map fun t => (timeMinutes t : ℚ)) with
  | none => none
  | some med => some ⟨(⌊med / 60⌋).toNat % 24, (⌊med - 60 * ⌊med / 60⌋⌋).toNat⟩

/-- Mean of a list of rationals (the `sum(...)/len(...)` pattern;
    callers guard against the empty list). -/
def ratMean (l : List ℚ) : ℚ := l.sum / l.length

/-- Model of `_std(values)` on an already null-filtered list: population standard
    deviation (`sqrt` lifts to `ℝ`). -/
noncomputable def pyStd (l : List ℚ) : Option ℝ :=
  if l = [] then none
  else
    let μ := ratMean l
    some (Real.sqrt (((l.map fun v => (v - μ) ^ 2).sum / l.length : ℚ) : ℝ))

/-- Model of `_std_time`. -/
noncomputable def std_time (ts : List Time) : Option ℝ :=
  pyStd (ts.map fun t => (timeMinutes t : ℚ))

/-- The per-time circular offset in minutes from the expected time
    (`abs(...) % 1440`, folded onto the shorter arc). -/
def circOffset (t e : Time) : ℕ :=
  let diff := ((timeMinutes t : ℤ) - (timeMinutes e : ℤ)).natAbs % (24 * 60)
  if 12 * 60 < diff then 24 * 60 - diff else diff

/-- Model of `%I:%M%p` lowered: `"07:15am"`. -/
def fmt12 (t : Time) : String :=
  pad2 (if t.hour % 12 = 0 then 12 else t.hour % 12) ++ ":" ++ pad2 t.minute
    ++ (if t.hour < 12 then "am" else "pm")

/-! ### Statistics frames (one-row `pandas.DataFrame`s)

A weekly statistics frame is an association list of column name to
cell.  A cell is a float, a formatted string or a null; pandas dtype
rules as the code relies on them: a column whose cells are all floats
has a numeric dtype, a column containing a string or a `None` has
dtype `object`. -/

inductive Cell
  | cnum (x : ℝ)
  | cstr (s : String)
  | cnull

abbrev Frame : Type := List (String × Cell)

def cellIsNull : Cell → Bool
  | .cnull => true
  | _ => false

def cellIsNum : Cell → Bool
  | .cnum _ => true
  | _ => false

/-- Numeric payload of a cell (only ever read off `cnum` cells). -/
def cellNum : Cell → ℝ
  | .cnum x => x
  | _ => 0

/-- Model of `isinstance(v, str)` extraction. -/
def cellStr : Cell → Option String
  | .cstr s => some s
  | _ => none

/-- Model of `isinstance(v, str) and ':' in v`. -/
def cellHasColonStr : Cell → Bool
  | .cstr s => s.data.contains ':'
  | _ => false

/-! ### `compute_weekly_stats` -/

/-- Column presence in the dataframe (`col in wk_df`: a sub-frame keeps
    every column of the whole frame, so presence is dataframe-wide). -/
def dfHasCol (df : List Rec) (c : String) : Bool :=
  df.any fun r => (alookup r.fields c).isSome

/-- Model of `wk_df[col].dropna().tolist()` for a time column. -/
def colTimes (wk : List Rec) (c : String) : List Time :=
  wk.filterMap fun r =>
    match alookup r.fields c with
    | some (Value.vtime t) => some t
    | _ => none

/-- Model of `wk_df[col].dropna().tolist()` for a numeric column. -/
def colNums (wk : List Rec) (c : String) : List ℚ :=
  wk.filterMap fun r =>
    match alookup r.fields c with
    | some (Value.vnum q) => some q
    | _ => none

/-- Model of `wk_df.get('alcohol_drinks', pd.Series(dtype=float)).fillna(0).sum()`:
    missing cells and nulls count as zero. -/
def drinksSum (wk : List Rec) : ℚ :=
  (wk.map fun r =>
    match alookup r.fields "alcohol_drinks" with
    | some (Value.vnum q) => q
    | _ => 0).sum

/-- The six statistics cells of one clock-time column. -/
noncomputable def timeColStats (df wk : List Rec) (c : String) : Frame :=
  let times := if dfHasCol df c then colTimes wk c else []
  let avgCell : Cell :=
    if times = [] then .cnull
    else match avg_time (times.map some) with
         | some t => .cstr (fmt12 t)
         | none => .cnull
  let medCell : Cell :=
    if times = [] then .cnull
    else match median_time times with
         | some t => .cstr (fmt12 t)
         | none => .cnull
  let stdCell : Cell :=
    if times = [] then .cnull
    else match std_time times with
         | some x => .cnum x
         | none => .cnull
  let offs : List ℚ :=
    if times = [] then [] else times.map fun t => (circOffset t (expectedTime c) : ℚ)
  let offAvg : Cell := if offs = [] then .cnull else .cnum (ratMean offs)
  let offMed : Cell :=
    if offs = [] then .cnull
    else match pyMedianQ offs with | some q => .cnum (q : ℝ) | none => .cnull
  let offStd : Cell :=
    if offs = [] then .cnull
    else match pyStd offs with | some x => .cnum x | none => .cnull
  [(c ++ "_avg", avgCell), (c ++ "_median", medCell), (c ++ "_std", stdCell),
   (c ++ "_offset_avg", offAvg), (c ++ "_offset_median", offMed),
   (c ++ "_offset_std", offStd)]

/-- The three statistics cells of one numeric column. -/
noncomputable def numColStats (df wk : List Rec) (c : String) : Frame :=
  let vals := if dfHasCol df c then colNums wk c else []
  [(c ++ "_avg", if vals = [] then .cnull else Cell.cnum (ratMean vals)),
   (c ++ "_median",
    (if vals = [] then .cnull
     else match pyMedianQ vals with | some q => .cnum (q : ℝ) | none => .cnull : Cell)),
   (c ++ "_std",
    (if vals = [] then .cnull
     else match pyStd vals with | some x => .cnum x | none => .cnull : Cell))]

/-- The one-row statistics frame of one week group, columns in the
    insertion order of the `stats` dict. -/
noncomputable def weekFrame (df wk : List Rec) : Frame :=
  ("total_drinks", Cell.cnum ((drinksSum wk : ℚ) : ℝ)) ::
    ((TIME_COLS.map (timeColStats df wk)).flatten ++ (NUMERIC_COLS.map (numColStats df wk)).flatten)

/-- Code-point comparison of strings, Python's `str <=`. -/
def charListLe : List Char → List Char → Bool
  | [], _ => true
  | _ :: _, [] => false
  | a :: as, b :: bs => if a < b then true else if b < a then false else charListLe as bs

def strInsert (x : String) : List String → List String
  | [] => [x]
  | y :: ys => if charListLe x.data y.data then x :: y :: ys else y :: strInsert x ys

/-- Model of `sorted` on strings (pandas `groupby` sorts its group keys). -/
def strSorted : List String → List String
  | [] => []
  | x :: xs => strInsert x (strSorted xs)

/-- Model of `compute_weekly_stats(df)`: per-week statistics keyed by
    `week_label`, group keys in sorted order as `groupby` yields them.
    (A `Rec` always carries its `week_label`, so the code's
    `'week_label' not in df.columns` guard coincides with the empty
    check here.) -/
noncomputable def compute_weekly_stats (df : List Rec) : List (String × Frame) :=
  if df = [] then []
  else
    (strSorted ((df.map Rec.week).dedup)).map fun l =>
      (l, weekFrame df (df.filter fun r => r.week = l))

/-! ### `_filter_non_empty_frames` and `compute_overall_stats` -/

/-- Model of `_filter_non_empty_frames`: keep the one-row frames in which some
    cell is not null (`df.dropna(how="all")` drops the row exactly when
    every cell is NA). -/
def filter_non_empty_frames (fs : List Frame) : List Frame :=
  fs.filter fun f => f.any fun kv => ¬ cellIsNull kv.2

/-- Columns of `pd.concat(valid_stats)`: union in order of first
    appearance. -/
def combinedCols (fs : List Frame) : List String :=
  fs.foldl (fun acc f => f.foldl (fun a kv => if kv.1 ∈ a then a else a ++ [kv.1]) acc) []

/-- The column of cells of the concatenated frame, one per input row.
    (The frames aggregated by the claims all share the same column
    set; a column absent from one frame — which pandas would fill with
    `NaN` — is modelled as null.) -/
def colCells (fs : List Frame) (c : String) : List Cell :=
  fs.map fun f => (alookup f c).getD .cnull

/-- Python dict assignment `overall[col] = v`: update in place if the
    key exists (keeping its position), else append. -/
def upsert (f : Frame) (k : String) (v : Cell) : Frame :=
  if (alookup f k).isSome then
    f.map fun kv => if kv.1 = k then (k, v) else kv
  else f ++ [(k, v)]

noncomputable def rInsert (x : ℝ) : List ℝ → List ℝ
  | [] => [x]
  | y :: ys => if x ≤ y then x :: y :: ys else y :: rInsert x ys

noncomputable def rSorted : List ℝ → List ℝ
  | [] => []
  | x :: xs => rInsert x (rSorted xs)

/-- Model of `_median` over the floats of an overall column. -/
noncomputable def pyMedianR (values : List ℝ) : Option ℝ :=
  let v := rSorted values
  if v.isEmpty then none
  else
    let mid := v.length / 2
    if v.length % 2 = 1 then some (v.getD mid 0)
    else some ((v.getD (mid - 1) 0 + v.getD mid 0) / 2)

/-- The overall value of one numeric column: the arithmetic mean of its
    non-null cells (`None` when all cells are filtered out). -/
noncomputable def overallNumCell (valid : List Frame) (c : String) : Cell :=
  if ((colCells valid c).filter fun x => ¬ cellIsNull x).isEmpty then .cnull
  else
    .cnum ((((colCells valid c).filter fun x => ¬ cellIsNull x).map cellNum).sum /
      ((colCells valid c).filter fun x => ¬ cellIsNull x).length)

/-- The special-cased `total_drinks_median` value. -/
noncomputable def overallTdmCell (valid : List Frame) : Cell :=
  if ((colCells valid "total_drinks").filter fun x => ¬ cellIsNull x).isEmpty then .cnull
  else
    match pyMedianR ((((colCells valid "total_drinks").filter fun x => ¬ cellIsNull x)).map cellNum) with
    | some m => .cnum m
    | none => Cell.cnull

/-- One iteration of the time-column loop of `compute_overall_stats`:
    reparse every string cell of the column via `pd.to_datetime` (an
    unparseable one raises), and when the circular mean of the parsed
    times exists, write its `%I:%M%p` rendering into the overall row. -/
noncomputable def overallTimeStep (pdp : String → Option Time) (valid : List Frame)
    (acc : Frame) (c : String) : Except String Frame := do
  let times ← ((colCells valid c).filterMap cellStr).mapM fun s =>
    match pdp s with
    | some t => Except.ok t
    | none => Except.error ("Unknown datetime string format: " ++ s)
  if times = [] then pure acc
  else
    match avg_time (times.map some) with
    | some t => pure (upsert acc c (.cstr (fmt12 t)))
    | none => pure acc

/-- Model of `compute_overall_stats(weekly_stats)`.  `pdp` stands for
    `pandas.to_datetime(...).time()`, which is *not* wrapped in a
    `try` here: a string it cannot parse raises, hence the `Except`.
    (`datetime.time` values are always truthy in modern Python, so
    `if avg_t` is the `some` case.) -/
noncomputable def compute_overall_stats (pdp : String → Option Time)
    (w : List (String × Frame)) : Except String Frame :=
  if w.isEmpty then .ok []
  else
    let valid := filter_non_empty_frames (w.map fun kv => kv.2)
    if valid.isEmpty then .ok []
    else
      let cols := combinedCols valid
      let numericCols := cols.filter fun c => (colCells valid c).all cellIsNum
      let timeCols := cols.filter fun c =>
        ¬ (colCells valid c).all cellIsNum ∧ (colCells valid c).any cellHasColonStr
      let o1 := numericCols.foldl (fun acc c => upsert acc c (overallNumCell valid c)) []
      let o2 :=
        if cols.contains "total_drinks" then
          upsert o1 "total_drinks_median" (overallTdmCell valid)
        else o1
      timeCols.foldlM (overallTimeStep pdp valid) o2

/-! ### Spec-side reference definition for the week-header claim -/

/-- Modelled from the spec's words (§4.3 `parseWeekHeader`): extract
    all integer tokens in order and require at least 3; the first two
    are the start month/day; with 4+ integers the next two are the end
    month/day, otherwise the end month equals the start month and the
    3rd integer is the end day; the start date uses the fixed default
    year; if the computed end date precedes the start date, increment
    the end year by one exactly when the end month is numerically less
    than the start month; return the inclusive day list and the
    zero-padded label `MMDD-MMDD`. -/
def specWeekHeaderFromNums (nums : List ℕ) : Except String (Option (String × List Date)) := do
  if nums.length < 3 then pure none
  else
    let sm := nums.getD 0 0
    let sd := nums.getD 1 0
    let em := if 4 ≤ nums.length then nums.getD 2 0 else sm
    let ed := if 4 ≤ nums.length then nums.getD 3 0 else nums.getD 2 0
    let start ← mkDateE 2025 sm sd
    let end0 ← mkDateE 2025 em ed
    let endF ←
      if dateToOrd end0 - dateToOrd start < 0 ∧ em < sm then mkDateE 2026 em ed
      else pure end0
    let days := (List.range (dateToOrd endF - dateToOrd start + 1).toNat).map (addDays start)
    pure (some (pad2 sm ++ pad2 sd ++ "-" ++ pad2 em ++ pad2 ed, days))

/-- The spec's `parseWeekHeader` on a whole line. -/
def specParseWeekHeader (line : String) : Except String (Option (String × List Date)) :=
  specWeekHeaderFromNums (findAllInts (pyStrip line).data)

/-! ### Concrete inputs used by the claim instances -/

/-- A `pandas.to_datetime` model that always raises (every fallback
    token in the concrete logs below is genuinely unparseable). -/
def fbNone : String → Option Time := fun _ => none

/-- Two week blocks claiming the same calendar date (the repository's
    own duplicate-date test input). -/
def dupLogLines : List String :=
  ["    1/1-1/4",
   "        6. What time did you wake up? 7am 7am 7am 7am",
   "    1/4-1/7",
   "        6. What time did you wake up? 7am 7am 7am 7am"]

/-- The records `parse_log` builds from `dupLogLines` before the
    duplicate check (Jan 4 appears twice). -/
def dupLogRecs : List Rec :=
  [⟨⟨2025, 1, 1⟩, "0101-0104", [("wake_up_time", .vtime ⟨7, 0⟩)]⟩,
   ⟨⟨2025, 1, 2⟩, "0101-0104", [("wake_up_time", .vtime ⟨7, 0⟩)]⟩,
   ⟨⟨2025, 1, 3⟩, "0101-0104", [("wake_up_time", .vtime ⟨7, 0⟩)]⟩,
   ⟨⟨2025, 1, 4⟩, "0101-0104", [("wake_up_time", .vtime ⟨7, 0⟩)]⟩,
   ⟨⟨2025, 1, 4⟩, "0104-0107", [("wake_up_time", .vtime ⟨7, 0⟩)]⟩,
   ⟨⟨2025, 1, 5⟩, "0104-0107", [("wake_up_time", .vtime ⟨7, 0⟩)]⟩,
   ⟨⟨2025, 1, 6⟩, "0104-0107", [("wake_up_time", .vtime ⟨7, 0⟩)]⟩,
   ⟨⟨2025, 1, 7⟩, "0104-0107", [("wake_up_time", .vtime ⟨7, 0⟩)]⟩]

/-- A log with pairwise-distinct dates. -/
def goodLogLines : List String :=
  ["    1/1-1/3",
   "        6. What time did you wake up? 7am 8:30pm ."]

def goodLogRecs : List Rec :=
  [⟨⟨2025, 1, 1⟩, "0101-0103", [("wake_up_time", .vtime ⟨7, 0⟩)]⟩,
   ⟨⟨2025, 1, 2⟩, "0101-0103", [("wake_up_time", .vtime ⟨20, 30⟩)]⟩,
   ⟨⟨2025, 1, 3⟩, "0101-0103", [("wake_up_time", .vnone)]⟩]

/-- A log whose drinks-count line carries an unparseable token. -/
def badDrinksLines : List String :=
  ["    1/1-1/2",
   "        14. If alcohol, how many standard drinks? abc 2"]

/-- A log with malformed tokens in a time field and in an ordinary
    numeric field. -/
def malformedLines : List String :=
  ["    1/1-1/2",
   "        6. What time did you wake up? 7am xyz",
   "        2. How long do you estimate it took to fall asleep (minutes)? 10 zz"]

def malformedRecs : List Rec :=
  [⟨⟨2025, 1, 1⟩, "0101-0102",
    [("wake_up_time", .vtime ⟨7, 0⟩), ("fall_asleep_minutes", .vnum 10)]⟩,
   ⟨⟨2025, 1, 2⟩, "0101-0102",
    [("wake_up_time", .vnone), ("fall_asleep_minutes", .vnone)]⟩]

/-- Placeholder `'.'` tokens in the drinks field and in another numeric
    field. -/
def placeholderLines : List String :=
  ["    1/1-1/2",
   "        14. If alcohol, how many standard drinks? . 2",
   "        12. Mood during the day (1-10)? . 4"]

def placeholderRecs : List Rec :=
  [⟨⟨2025, 1, 1⟩, "0101-0102", [("alcohol_drinks", .vnum 0), ("mood", .vnone)]⟩,
   ⟨⟨2025, 1, 2⟩, "0101-0102", [("alcohol_drinks", .vnum 2), ("mood", .vnum 4)]⟩]

/-- Same mapped question on two lines of one week block. -/
def repeatedQuestionLines : List String :=
  ["    1/1-1/2",
   "        12. Mood during the day (1-10)? 3 4",
   "        12. Mood during the day (1-10)? 9 9"]

def repeatedQuestionRecs : List Rec :=
  [⟨⟨2025, 1, 1⟩, "0101-0102", [("mood", .vnum 3)]⟩,
   ⟨⟨2025, 1, 2⟩, "0101-0102", [("mood", .vnum 4)]⟩]

/-- The two-week drinks table of the end-to-end claim: week A has
    drink counts [1,1,1], week B has [2,2,3]. -/
def drinksDf : List Rec :=
  [⟨⟨2025, 1, 1⟩, "0101-0107", [("alcohol_drinks", .vnum 1)]⟩,
   ⟨⟨2025, 1, 2⟩, "0101-0107", [("alcohol_drinks", .vnum 1)]⟩,
   ⟨⟨2025, 1, 3⟩, "0101-0107", [("alcohol_drinks", .vnum 1)]⟩,
   ⟨⟨2025, 1, 8⟩, "0108-0114", [("alcohol_drinks", .vnum 2)]⟩,
   ⟨⟨2025, 1, 9⟩, "0108-0114", [("alcohol_drinks", .vnum 2)]⟩,
   ⟨⟨2025, 1, 10⟩, "0108-0114", [("alcohol_drinks", .vnum 3)]⟩]

/-- A week whose only record has all-null fields. -/
def allNullDf : List Rec :=
  [⟨⟨2025, 2, 1⟩, "0201-0207",
    [("bed_time", .vnone), ("alcohol_drinks", .vnone), ("mood", .vnone)]⟩]

/-- A weekly-stats map with a single recognized time column. -/
def timeColWmap : List (String × Frame) :=
  [("w1", [("bed_time_avg", Cell.cstr "02:00am")])]

def pdp2am : String → Option Time :=
  fun s => if s = "02:00am" then some ⟨2, 0⟩ else none

/-- A second single-time-column weekly-stats map. -/
def timeColWmap2 : List (String × Frame) :=
  [("w1", [("wake_up_time_avg", Cell.cstr "03:00am")])]

def pdp3am : String → Option Time :=
  fun s => if s = "03:00am" then some ⟨3, 0⟩ else none


/-! ### Expected weekly statistics frames for the concrete inputs

Written out cell by cell (they are proved equal to the pipeline's
output by `rfl`): a week of all-null records has `total_drinks = 0.0`
and every other statistic null; the two drinks weeks carry their
alcohol statistics and nulls elsewhere. -/

noncomputable def allNullWeekFrame : Frame :=
  [("total_drinks", Cell.cnum ((drinksSum (allNullDf.filter fun r => r.week = "0201-0207") : ℚ) : ℝ)),
   ("wind_down_start_time_avg", Cell.cnull),
   ("wind_down_start_time_median", Cell.cnull),
   ("wind_down_start_time_std", Cell.cnull),
   ("wind_down_start_time_offset_avg", Cell.cnull),
   ("wind_down_start_time_offset_median", Cell.cnull),
   ("wind_down_start_time_offset_std", Cell.cnull),
   ("bed_time_avg", Cell.cnull),
   ("bed_time_median", Cell.cnull),
   ("bed_time_std", Cell.cnull),
   ("bed_time_offset_avg", Cell.cnull),
   ("bed_time_offset_median", Cell.cnull),
   ("bed_time_offset_std", Cell.cnull),
   ("wake_up_time_avg", Cell.cnull),
   ("wake_up_time_median", Cell.cnull),
   ("wake_up_time_std", Cell.cnull),
   ("wake_up_time_offset_avg", Cell.cnull),
   ("wake_up_time_offset_median", Cell.cnull),
   ("wake_up_time_offset_std", Cell.cnull),
   ("get_out_of_bed_time_avg", Cell.cnull),
   ("get_out_of_bed_time_median", Cell.cnull),
   ("get_out_of_bed_time_std", Cell.cnull),
   ("get_out_of_bed_time_offset_avg", Cell.cnull),
   ("get_out_of_bed_time_offset_median", Cell.cnull),
   ("get_out_of_bed_time_offset_std", Cell.cnull),
   ("fall_asleep_minutes_avg", Cell.cnull),
   ("fall_asleep_minutes_median", Cell.cnull),
   ("fall_asleep_minutes_std", Cell.cnull),
   ("night_wake_ups_avg", Cell.cnull),
   ("night_wake_ups_median", Cell.cnull),
   ("night_wake_ups_std", Cell.cnull),
   ("awake_minutes_avg", Cell.cnull),
   ("awake_minutes_median", Cell.cnull),
   ("awake_minutes_std", Cell.cnull),
   ("out_of_bed_minutes_avg", Cell.cnull),
   ("out_of_bed_minutes_median", Cell.cnull),
   ("out_of_bed_minutes_std", Cell.cnull),
   ("sleep_hours_avg", Cell.cnull),
   ("sleep_hours_median", Cell.cnull),
   ("sleep_hours_std", Cell.cnull),
   ("bed_hours_avg", Cell.cnull),
   ("bed_hours_median", Cell.cnull),
   ("bed_hours_std", Cell.cnull),
   ("sleep_quality_avg", Cell.cnull),
   ("sleep_quality_median", Cell.cnull),
   ("sleep_quality_std", Cell.cnull),
   ("naps_avg", Cell.cnull),
   ("naps_median", Cell.cnull),
   ("naps_std", Cell.cnull),
   ("mood_avg", Cell.cnull),
   ("mood_median", Cell.cnull),
   ("mood_std", Cell.cnull),
   ("fatigue_avg", Cell.cnull),
   ("fatigue_median", Cell.cnull),
   ("fatigue_std", Cell.cnull),
   ("alcohol_drinks_avg", Cell.cnull),
   ("alcohol_drinks_median", Cell.cnull),
   ("alcohol_drinks_std", Cell.cnull)]

noncomputable def drinksWeekFrameA : Frame :=
  [("total_drinks", Cell.cnum ((drinksSum (drinksDf.filter fun r => r.week = "0101-0107") : ℚ) : ℝ)),
   ("wind_down_start_time_avg", Cell.cnull),
   ("wind_down_start_time_median", Cell.cnull),
   ("wind_down_start_time_std", Cell.cnull),
   ("wind_down_start_time_offset_avg", Cell.cnull),
   ("wind_down_start_time_offset_median", Cell.cnull),
   ("wind_down_start_time_offset_std", Cell.cnull),
   ("bed_time_avg", Cell.cnull),
   ("bed_time_median", Cell.cnull),
   ("bed_time_std", Cell.cnull),
   ("bed_time_offset_avg", Cell.cnull),
   ("bed_time_offset_median", Cell.cnull),
   ("bed_time_offset_std", Cell.cnull),
   ("wake_up_time_avg", Cell.cnull),
   ("wake_up_time_median", Cell.cnull),
   ("wake_up_time_std", Cell.cnull),
   ("wake_up_time_offset_avg", Cell.cnull),
   ("wake_up_time_offset_median", Cell.cnull),
   ("wake_up_time_offset_std", Cell.cnull),
   ("get_out_of_bed_time_avg", Cell.cnull),
   ("get_out_of_bed_time_median", Cell.cnull),
   ("get_out_of_bed_time_std", Cell.cnull),
   ("get_out_of_bed_time_offset_avg", Cell.cnull),
   ("get_out_of_bed_time_offset_median", Cell.cnull),
   ("get_out_of_bed_time_offset_std", Cell.cnull),
   ("fall_asleep_minutes_avg", Cell.cnull),
   ("fall_asleep_minutes_median", Cell.cnull),
   ("fall_asleep_minutes_std", Cell.cnull),
   ("night_wake_ups_avg", Cell.cnull),
   ("night_wake_ups_median", Cell.cnull),
   ("night_wake_ups_std", Cell.cnull),
   ("awake_minutes_avg", Cell.cnull),
   ("awake_minutes_median", Cell.cnull),
   ("awake_minutes_std", Cell.cnull),
   ("out_of_bed_minutes_avg", Cell.cnull),
   ("out_of_bed_minutes_median", Cell.cnull),
   ("out_of_bed_minutes_std", Cell.cnull),
   ("sleep_hours_avg", Cell.cnull),
   ("sleep_hours_median", Cell.cnull),
   ("sleep_hours_std", Cell.cnull),
   ("bed_hours_avg", Cell.cnull),
   ("bed_hours_median", Cell.cnull),
   ("bed_hours_std", Cell.cnull),
   ("sleep_quality_avg", Cell.cnull),
   ("sleep_quality_median", Cell.cnull),
   ("sleep_quality_std", Cell.cnull),
   ("naps_avg", Cell.cnull),
   ("naps_median", Cell.cnull),
   ("naps_std", Cell.cnull),
   ("mood_avg", Cell.cnull),
   ("mood_median", Cell.cnull),
   ("mood_std", Cell.cnull),
   ("fatigue_avg", Cell.cnull),
   ("fatigue_median", Cell.cnull),
   ("fatigue_std", Cell.cnull),
   ("alcohol_drinks_avg", Cell.cnum ((ratMean [(1 : ℚ), (1 : ℚ), (1 : ℚ)] : ℚ) : ℝ)),
   ("alcohol_drinks_median", Cell.cnum ((1 : ℚ) : ℝ)),
   ("alcohol_drinks_std", Cell.cnum (Real.sqrt ((((([(1 : ℚ), (1 : ℚ), (1 : ℚ)] : List ℚ)).map fun v => (v - ratMean [(1 : ℚ), (1 : ℚ), (1 : ℚ)]) ^ 2).sum / (([(1 : ℚ), (1 : ℚ), (1 : ℚ)] : List ℚ)).length : ℚ))))]

noncomputable def drinksWeekFrameB : Frame :=
  [("total_drinks", Cell.cnum ((drinksSum (drinksDf.filter fun r => r.week = "0108-0114") : ℚ) : ℝ)),
   ("wind_down_start_time_avg", Cell.cnull),
   ("wind_down_start_time_median", Cell.cnull),
   ("wind_down_start_time_std", Cell.cnull),
   ("wind_down_start_time_offset_avg", Cell.cnull),
   ("wind_down_start_time_offset_median", Cell.cnull),
   ("wind_down_start_time_offset_std", Cell.cnull),
   ("bed_time_avg", Cell.cnull),
   ("bed_time_median", Cell.cnull),
   ("bed_time_std", Cell.cnull),
   ("bed_time_offset_avg", Cell.cnull),
   ("bed_time_offset_median", Cell.cnull),
   ("bed_time_offset_std", Cell.cnull),
   ("wake_up_time_avg", Cell.cnull),
   ("wake_up_time_median", Cell.cnull),
   ("wake_up_time_std", Cell.cnull),
   ("wake_up_time_offset_avg", Cell.cnull),
   ("wake_up_time_offset_median", Cell.cnull),
   ("wake_up_time_offset_std", Cell.cnull),
   ("get_out_of_bed_time_avg", Cell.cnull),
   ("get_out_of_bed_time_median", Cell.cnull),
   ("get_out_of_bed_time_std", Cell.cnull),
   ("get_out_of_bed_time_offset_avg", Cell.cnull),
   ("get_out_of_bed_time_offset_median", Cell.cnull),
   ("get_out_of_bed_time_offset_std", Cell.cnull),
   ("fall_asleep_minutes_avg", Cell.cnull),
   ("fall_asleep_minutes_median", Cell.cnull),
   ("fall_asleep_minutes_std", Cell.cnull),
   ("night_wake_ups_avg", Cell.cnull),
   ("night_wake_ups_median", Cell.cnull),
   ("night_wake_ups_std", Cell.cnull),
   ("awake_minutes_avg", Cell.cnull),
   ("awake_minutes_median", Cell.cnull),
   ("awake_minutes_std", Cell.cnull),
   ("out_of_bed_minutes_avg", Cell.cnull),
   ("out_of_bed_minutes_median", Cell.cnull),
   ("out_of_bed_minutes_std", Cell.cnull),
   ("sleep_hours_avg", Cell.cnull),
   ("sleep_hours_median", Cell.cnull),
   ("sleep_hours_std", Cell.cnull),
   ("bed_hours_avg", Cell.cnull),
   ("bed_hours_median", Cell.cnull),
   ("bed_hours_std", Cell.cnull),
   ("sleep_quality_avg", Cell.cnull),
   ("sleep_quality_median", Cell.cnull),
   ("sleep_quality_std", Cell.cnull),
   ("naps_avg", Cell.cnull),
   ("naps_median", Cell.cnull),
   ("naps_std", Cell.cnull),
   ("mood_avg", Cell.cnull),
   ("mood_median", Cell.cnull),
   ("mood_std", Cell.cnull),
   ("fatigue_avg", Cell.cnull),
   ("fatigue_median", Cell.cnull),
   ("fatigue_std", Cell.cnull),
   ("alcohol_drinks_avg", Cell.cnum ((ratMean [(2 : ℚ), (2 : ℚ), (3 : ℚ)] : ℚ) : ℝ)),
   ("alcohol_drinks_median", Cell.cnum ((2 : ℚ) : ℝ)),
   ("alcohol_drinks_std", Cell.cnum (Real.sqrt ((((([(2 : ℚ), (2 : ℚ), (3 : ℚ)] : List ℚ)).map fun v => (v - ratMean [(2 : ℚ), (2 : ℚ), (3 : ℚ)]) ^ 2).sum / (([(2 : ℚ), (2 : ℚ), (3 : ℚ)] : List ℚ)).length : ℚ))))]
/-- Equality of `Except` results is decidable when both components are. -/
instance {ε α : Type} [DecidableEq ε] [DecidableEq α] : DecidableEq (Except ε α)
  | Except.error e, Except.error f =>
      if h : e = f then .isTrue (congrArg Except.error h)
      else .isFalse fun hh => h ((Except.error.injEq _ _).mp hh)
  | Except.error _, Except.ok _ => .isFalse fun hh => Except.noConfusion hh
  | Except.ok _, Except.error _ => .isFalse fun hh => Except.noConfusion hh
  | Except.ok a, Except.ok b =>
      if h : a = b then .isTrue (congrArg Except.ok h)
      else .isFalse fun hh => h ((Except.ok.injEq _ _).mp hh)

/-! ## Theorems -/

lemma mkDateE_ok {y m d : ℕ} {dt : Date} (h : mkDateE y m d = .ok dt) : dt = ⟨y, m, d⟩ := by
  unfold mkDateE at h
  split at h
  · exact absurd h (by simp)
  · split at h
    · exact absurd h (by simp)
    · split at h
      · exact absurd h (by simp)
      · injection h with h'; exact h'.symm

lemma weekHeaderFromNums_eq (nums : List ℕ) :
    weekHeaderFromNums nums = specWeekHeaderFromNums nums := by
  match nums with
  | [] => rfl
  | [_] => rfl
  | [_, _] => rfl
  | sm :: sd :: n3 :: rest =>
    unfold weekHeaderFromNums specWeekHeaderFromNums
    cases rest with
    | nil =>
      simp only [List.length_cons, List.length_nil, ne_eq, not_true_eq_false, if_false,
        List.getD, List.getD_cons_succ, List.getD_cons_zero]
      norm_num
      cases hs : mkDateE 2025 sm sd with
      | error e => simp [Bind.bind, Except.bind, hs]
      | ok start =>
        have hst := mkDateE_ok hs
        subst hst
        cases he : mkDateE 2025 sm n3 with
        | error e => simp [Bind.bind, Except.bind, hs, he]
        | ok end0 =>
          by_cases hd : dateToOrd end0 - dateToOrd (⟨2025, sm, sd⟩ : Date) < 0
          · simp only [Bind.bind, Except.bind, hs, he, hd, lt_self_iff_false, and_false,
              if_false, if_true, ite_false, ite_true]
            split <;> rfl
          · simp only [Bind.bind, Except.bind, hs, he, hd, if_false, ite_false, and_false]
            split <;> rfl
    | cons n4 r4 =>
      simp only [List.length_cons, ne_eq, List.getD_cons_succ, List.getD_cons_zero,
        List.headI, reduceCtorEq, not_false_eq_true, if_true, ite_true]
      have hlen : ¬ (r4.length + 1 + 1 + 1 + 1 < 3) := by omega
      have hlen4 : 4 ≤ r4.length + 1 + 1 + 1 + 1 := by omega
      simp only [hlen, hlen4, if_true, if_false, ite_true, ite_false]
      cases hs : mkDateE 2025 sm sd with
      | error e => simp [Bind.bind, Except.bind, hs]
      | ok start =>
        have hst := mkDateE_ok hs
        subst hst
        cases he : mkDateE 2025 n3 n4 with
        | error e => simp [Bind.bind, Except.bind, hs, he]
        | ok end0 =>
          by_cases hd : dateToOrd end0 - dateToOrd (⟨2025, sm, sd⟩ : Date) < 0
          · by_cases hm : n3 < sm
            · simp only [Bind.bind, Except.bind, hs, he, hd, hm, and_self, if_true, ite_true]
              cases h1 : mkDateE 2026 n3 n4 with
              | error e => rfl
              | ok end1 => rfl
            · simp only [Bind.bind, Except.bind, hs, he, hd, hm, and_false, if_true, ite_true,
                ite_false, if_false]
              rfl
          · simp only [Bind.bind, Except.bind, hs, he, hd, false_and, if_false, ite_false,
              and_false]
            rfl

/-- C4: `parseWeekHeader` extracts all integer tokens in order, requires
    at least 3, takes the first two as start month/day and the next two
    as end month/day when 4+ are present (otherwise the end month is the
    start month and the 3rd integer the end day), uses the fixed default
    year for the start date, increments the end year by one on rollover
    exactly when the end month is numerically less than the start month,
    and returns the inclusive day list with the zero-padded `MMDD-MMDD`
    label; in particular `"Tue12/30-Mon1/05"` yields label `"1230-0105"`
    and 7 dates rolling into the following year. -/
theorem C4_week_header_matches_spec :
    (∀ line, parse_week_header line = specParseWeekHeader line) ∧
    parse_week_header "Tue12/30-Mon1/05" =
      .ok (some ("1230-0105",
        [⟨2025, 12, 30⟩, ⟨2025, 12, 31⟩, ⟨2026, 1, 1⟩, ⟨2026, 1, 2⟩,
         ⟨2026, 1, 3⟩, ⟨2026, 1, 4⟩, ⟨2026, 1, 5⟩])) :=
  ⟨fun _ => weekHeaderFromNums_eq _, by decide⟩

/-- C6 counterexample: the week-header recognizer is *not* total — the
    line `"99/99-99"` matches `_WEEK_HEADER_RE`, so `parse_log` hands it
    to `_parse_week_header`, where `datetime.date(2025, 99, 99)` raises
    an uncaught `ValueError` instead of the claimed `null`. -/
theorem C6_counterexample :
    weekHeaderRecognizer "99/99-99" = .error "month must be in 1..12" := by decide

/-- C6 (amended): every line that does not match the week-header regex
    is reported as `null` without raising; a matching line may raise a
    `ValueError` when its integers do not form valid calendar dates
    (matching lines with valid dates parse normally, e.g.
    `"Fri4/25-Wed4/30"`). -/
theorem C6_recognizer_amended :
    (∀ line, ¬ weekHeaderMatch (pyStrip line).data → weekHeaderRecognizer line = .ok none) ∧
    weekHeaderRecognizer "Fri4/25-Wed4/30" =
      .ok (some ("0425-0430",
        [⟨2025, 4, 25⟩, ⟨2025, 4, 26⟩, ⟨2025, 4, 27⟩, ⟨2025, 4, 28⟩,
         ⟨2025, 4, 29⟩, ⟨2025, 4, 30⟩])) :=
  ⟨fun line h => by unfold weekHeaderRecognizer; simp [h], by decide⟩

/-- C6 witness: the amended theorem applied to a non-header line. -/
theorem C6_recognizer_amended_witness :
    weekHeaderRecognizer "hello world" = .ok none :=
  C6_recognizer_amended.1 "hello world" (by decide)

lemma mem_dateInsert (a d : Date) (l : List Date) :
    a ∈ dateInsert d l ↔ a = d ∨ a ∈ l := by
  induction l with
  | nil => simp [dateInsert]
  | cons e es ih =>
      unfold dateInsert
      split
      · simp
      · simp only [List.mem_cons, ih]
        tauto

lemma mem_sortDates (a : Date) (l : List Date) : a ∈ sortDates l ↔ a ∈ l := by
  induction l with
  | nil => simp [sortDates]
  | cons d ds ih => simp [sortDates, mem_dateInsert, ih]

lemma dateInsert_ne_nil (d : Date) (l : List Date) : dateInsert d l ≠ [] := by
  cases l <;> unfold dateInsert
  · simp
  · split <;> simp

lemma sortDates_eq_nil (l : List Date) : sortDates l = [] ↔ l = [] := by
  cases l with
  | nil => simp [sortDates]
  | cons d ds => simp [sortDates, dateInsert_ne_nil]

lemma dupDates_eq_nil (recs : List Rec) :
    dupDates recs = [] ↔ (recs.map Rec.date).Nodup := by
  unfold dupDates
  rw [sortDates_eq_nil, List.dedup_eq_nil, List.filter_eq_nil_iff,
    List.nodup_iff_count_le_one]
  constructor
  · intro h a
    by_contra hh
    push_neg at hh
    have hmem : a ∈ recs.map Rec.date := List.count_pos_iff.mp (by omega)
    have := h a hmem
    simp at this
    omega
  · intro h d hd
    simp only [decide_eq_true_eq]
    have := h d
    omega

lemma mem_dupDates (recs : List Rec) (d : Date) :
    d ∈ dupDates recs ↔ 2 ≤ (recs.map Rec.date).count d := by
  unfold dupDates
  rw [mem_sortDates, List.mem_dedup, List.mem_filter]
  simp only [decide_eq_true_eq]
  constructor
  · exact fun h => h.2
  · intro h
    exact ⟨List.count_pos_iff.mp (by omega), h⟩

/-- C2: once `parse_log` has built its records, a calendar date claimed
    by more than one record makes it raise `ValueError` whose message
    names exactly the duplicated date(s) (the sorted duplicate set), and
    the records are never merged; with pairwise-distinct dates the
    record table is returned unchanged. -/
theorem C2_duplicate_dates (fb : String → Option Time) (lines : List String)
    (recs : List Rec) (h : buildRecords fb lines = .ok recs) :
    (¬ (recs.map Rec.date).Nodup →
       dupDates recs ≠ [] ∧
       (∀ d, d ∈ dupDates recs ↔ 2 ≤ (recs.map Rec.date).count d) ∧
       parse_log fb lines =
         .error ("Duplicate dates found in log: " ++ pyDateListRepr (dupDates recs))) ∧
    ((recs.map Rec.date).Nodup → parse_log fb lines = .ok recs) := by
  have hp : parse_log fb lines =
      (if dupDates recs ≠ [] then
        .error ("Duplicate dates found in log: " ++ pyDateListRepr (dupDates recs))
       else .ok recs) := by
    unfold parse_log
    rw [h]
    rfl
  constructor
  · intro hnd
    have hne : dupDates recs ≠ [] := fun hnil => hnd ((dupDates_eq_nil recs).mp hnil)
    exact ⟨hne, fun d => mem_dupDates recs d, by rw [hp, if_pos hne]⟩
  · intro hnd
    have hnil : dupDates recs = [] := (dupDates_eq_nil recs).mpr hnd
    rw [hp]
    simp [hnil]

/-- C2 witness: the theorem applied to the repository's own
    duplicate-date log (Jan 4 claimed by two week blocks) and to a
    distinct-dates log. -/
theorem C2_w :
    parse_log fbNone dupLogLines =
      .error "Duplicate dates found in log: [datetime.date(2025, 1, 4)]" ∧
    parse_log fbNone goodLogLines = .ok goodLogRecs := by
  constructor
  · have h := ((C2_duplicate_dates fbNone dupLogLines dupLogRecs (by decide)).1 (by decide)).2.2
    rw [h]
    decide
  · exact (C2_duplicate_dates fbNone goodLogLines goodLogRecs (by decide)).2 (by decide)

/-- C3 (amended): a value-level parse failure in any field *other than
    the drinks count* resolves to a null value for that single field/day
    and never aborts the parse (time fields and ordinary numeric fields
    fall back to `None`); but in the drinks-count field only the literal
    `'.'` placeholder is safe — any other unparseable token raises the
    uncaught `float()` `ValueError`, aborting `parse_log`. -/
theorem C3_amended (fb : String → Option Time) :
    (∀ (c : Option String) v, c ≠ some "alcohol_drinks" → (parseTokenE fb c v).isOk) ∧
    (∀ c v, c ∈ TIME_COLS → parse_time fb v = none →
        parseTokenE fb (some c) v = .ok .vnone) ∧
    (∀ c v, c ∈ NUMERIC_COLS → c ≠ "alcohol_drinks" → parse_duration fb v = none →
        pyFloat v = none → parseTokenE fb (some c) v = .ok .vnone) ∧
    (∀ v, v ≠ "." → pyFloat v = none →
        parseTokenE fb (some "alcohol_drinks") v =
          .error ("could not convert string to float: '" ++ v ++ "'")) ∧
    parse_log fbNone malformedLines = .ok malformedRecs := by
  refine ⟨?_, ?_, ?_, ?_, by decide⟩
  · intro c v hc
    match c with
    | none => rfl
    | some cc =>
      have h3 : cc ≠ "alcohol_drinks" := fun hh => hc (by rw [hh])
      by_cases h1 : cc ∈ TIME_COLS
      · simp [parseTokenE, h1, Except.isOk, Except.toBool]
      · by_cases h2 : cc ∈ STRING_COLS
        · simp [parseTokenE, h1, h2, Except.isOk, Except.toBool]
        · simp [parseTokenE, h1, h2, h3, Except.isOk, Except.toBool]
  · intro c v h1 hp
    simp [parseTokenE, h1, hp]
  · intro c v hn hne hd hf
    fin_cases hn <;>
      first
      | exact absurd rfl hne
      | simp [parseTokenE, TIME_COLS, STRING_COLS, NUMERIC_COLS, hd, hf]
  · intro v h1 h2
    simp [parseTokenE, TIME_COLS, STRING_COLS, h1, h2]

/-- C3 witness: the amended theorem applied to a malformed numeric
    token and to the malformed drinks token. -/
theorem C3_w :
    (parseTokenE fbNone (some "mood") "zz").isOk ∧
    parseTokenE fbNone (some "alcohol_drinks") "abc" =
      .error ("could not convert string to float: '" ++ "abc" ++ "'") :=
  ⟨(C3_amended fbNone).1 (some "mood") "zz" (by decide),
   (C3_amended fbNone).2.2.2.1 "abc" (by decide) (by decide)⟩

/-- C10: `week_data.setdefault(col, parsed_vals)` keeps the values of
    the first question/answer line for a mapped question and silently
    discards every later occurrence within the same week block; in the
    concrete log the repeated mood line's second values [9, 9] are
    dropped in favour of the first line's [3, 4]. -/
theorem C10_first_wins :
    (∀ (d : List (String × List Value)) k v,
        (alookup d k).isSome → pySetdefault d k v = d) ∧
    parse_log fbNone repeatedQuestionLines = .ok repeatedQuestionRecs := by
  refine ⟨?_, by decide⟩
  intro d k v h
  unfold pySetdefault
  rw [if_pos h]

/-- C10 witness: `setdefault` on a key that is already present. -/
theorem C10_w :
    pySetdefault [("mood", [Value.vnum 3, Value.vnum 4])] "mood" [Value.vnum 9] =
      [("mood", [Value.vnum 3, Value.vnum 4])] :=
  C10_first_wins.1 _ _ _ (by decide)

/-- C3 counterexample: a malformed token in the drinks-count field
    (here `"abc"`) does abort the overall parse — `float(v)` raises an
    uncaught `ValueError` — contradicting the claim that value-level
    failures in any field resolve to null. -/
theorem C3_counterexample :
    parse_log fbNone badDrinksLines =
      .error "could not convert string to float: 'abc'" := by decide

lemma atan2_div_pos (y x r : ℝ) (hr : 0 < r) : atan2 (y / r) (x / r) = atan2 y x := by
  unfold atan2
  have hz : (⟨x / r, y / r⟩ : ℂ) = (↑(r⁻¹) * ⟨x, y⟩ : ℂ) := by
    apply Complex.ext
    · simp [Complex.mul_re]
      ring
    · simp [Complex.mul_im]
      ring
  rw [hz, Complex.arg_real_mul _ (inv_pos.mpr hr)]

lemma angleToTime_of_minutes (h mm : ℕ) (hh : h ≤ 23) (hmm : mm ≤ 59) (θ : ℝ)
    (ht : θ * (24 * 60) / (2 * Real.pi) = ((60 * h + mm : ℕ) : ℝ)) :
    angleToTime θ = ⟨h, mm⟩ := by
  unfold angleToTime
  have hmm' : (mm : ℝ) ≤ 59 := by exact_mod_cast hmm
  have hfl : ⌊((60 * h + mm : ℕ) : ℝ) / 60⌋ = (h : ℤ) := by
    rw [Int.floor_eq_iff]
    push_cast
    constructor
    · rw [le_div_iff₀ (by norm_num)]
      nlinarith [Nat.cast_nonneg (α := ℝ) mm]
    · rw [div_lt_iff₀ (by norm_num)]
      nlinarith
  have hmod : pyModR ((60 * h + mm : ℕ) : ℝ) 60 = (mm : ℝ) := by
    unfold pyModR
    rw [hfl]
    push_cast
    ring
  have hdiv : pyFloorDivR ((60 * h + mm : ℕ) : ℝ) 60 = ((h : ℤ) : ℝ) := by
    unfold pyFloorDivR
    rw [hfl]
  have htr : pyTrunc ((h : ℤ) : ℝ) = (h : ℤ) := by
    unfold pyTrunc
    rw [if_pos (by positivity), Int.floor_intCast]
  have hemod : ((h : ℤ) % 24) = (h : ℤ) := Int.emod_eq_of_lt (by positivity) (by omega)
  have hre : pyRoundEven (mm : ℝ) = (mm : ℤ) := by
    unfold pyRoundEven
    rw [Int.fract_natCast]
    norm_num
  simp only [ht, hdiv, hmod, htr, hre, hemod]
  rw [if_neg (by omega)]
  simp

example : True := trivial

lemma atan2_sin_cos (a : ℝ) (h1 : 0 ≤ a) (h2 : a < 2 * Real.pi) :
    atan2 (Real.sin a) (Real.cos a) = if a ≤ Real.pi then a else a - 2 * Real.pi := by
  unfold atan2
  have hmk : (⟨Real.cos a, Real.sin a⟩ : ℂ) =
      (Real.cos a : ℂ) + (Real.sin a : ℂ) * Complex.I := by
    rw [Complex.mk_eq_add_mul_I]
  by_cases hle : a ≤ Real.pi
  · rw [hmk, if_pos hle, Complex.ofReal_cos, Complex.ofReal_sin]
    exact Complex.arg_cos_add_sin_mul_I ⟨by nlinarith [Real.pi_pos], hle⟩
  · rw [hmk, if_neg hle]
    rw [show (Real.cos a : ℂ) = (Real.cos (a - 2 * Real.pi) : ℂ) by rw [Real.cos_sub_two_pi],
        show (Real.sin a : ℂ) = (Real.sin (a - 2 * Real.pi) : ℂ) by rw [Real.sin_sub_two_pi],
        Complex.ofReal_cos, Complex.ofReal_sin]
    exact Complex.arg_cos_add_sin_mul_I ⟨by push_neg at hle; linarith, by nlinarith [Real.pi_pos]⟩

lemma timeAngle_nonneg (t : Time) : 0 ≤ timeAngle t := by
  unfold timeAngle
  have := Real.pi_pos
  positivity

lemma timeAngle_lt (t : Time) (h : timeMinutes t < 1440) : timeAngle t < 2 * Real.pi := by
  unfold timeAngle
  have hpi := Real.pi_pos
  have hm : (timeMinutes t : ℝ) < 1440 := by exact_mod_cast h
  have : (timeMinutes t : ℝ) / (24 * 60) < 1 := by
    rw [div_lt_one (by norm_num)]
    linarith
  nlinarith

lemma timeAngle_total (t : Time) :
    timeAngle t * (24 * 60) / (2 * Real.pi) = (timeMinutes t : ℝ) := by
  unfold timeAngle
  field_simp
  ring

lemma normAngle_of_nonneg {θ : ℝ} (h : 0 ≤ θ) : normAngle θ = θ := by
  unfold normAngle
  rw [if_neg (by push_neg; exact h)]

lemma avg_time_single (t : Time) (hh : t.hour ≤ 23) (hm : t.minute ≤ 59) :
    avg_time [some t] = some t := by
  have hmin : timeMinutes t < 1440 := by unfold timeMinutes; omega
  have hfm : (([some t] : List (Option Time)).filterMap id) = [t] := by simp
  have hs : sinSum [t] = Real.sin (timeAngle t) := by simp [sinSum]
  have hc : cosSum [t] = Real.cos (timeAngle t) := by simp [cosSum]
  have hz : ¬ (sinSum [t] = 0 ∧ cosSum [t] = 0) := by
    rw [hs, hc]
    rintro ⟨h1, h2⟩
    have := Real.sin_sq_add_cos_sq (timeAngle t)
    rw [h1, h2] at this
    norm_num at this
  unfold avg_time
  rw [hfm]
  rw [if_neg (by simp), if_neg hz]
  rw [hs, hc]
  have hlen : (([t] : List Time).length : ℝ) = 1 := by simp
  rw [hlen, div_one, div_one,
    atan2_sin_cos _ (timeAngle_nonneg t) (timeAngle_lt t hmin)]
  have hout : angleToTime (timeAngle t) = t := by
    have := angleToTime_of_minutes t.hour t.minute hh hm (timeAngle t)
      (by rw [timeAngle_total]; congr 1; unfold timeMinutes; ring)
    exact this
  by_cases hle : timeAngle t ≤ Real.pi
  · rw [if_pos hle, normAngle_of_nonneg (timeAngle_nonneg t), hout]
  · rw [if_neg hle]
    unfold normAngle
    rw [if_pos (by push_neg at hle; nlinarith [Real.pi_pos, timeAngle_lt t hmin]),
      show timeAngle t - 2 * Real.pi + 2 * Real.pi = timeAngle t by ring, hout]

lemma atan2_zero_nonneg (x : ℝ) (hx : 0 ≤ x) : atan2 0 x = 0 := by
  unfold atan2
  have hz : (⟨x, 0⟩ : ℂ) = (x : ℂ) := rfl
  rw [hz]
  exact Complex.arg_ofReal_of_nonneg hx

/-- C1: `_avg_time` matches the spec's reference circular-mean
    algorithm (each time mapped to the angle `2π·minutes/1440`, sine and
    cosine sums, `atan2` of the mean vector, normalization to `[0, 2π)`,
    conversion back to minutes with rounding and hour carry); its result
    is null exactly when the null-filtered input is empty or both
    component sums are exactly zero; and the input `[23:58, 00:02]`
    yields `00:00`. -/
theorem C1_circular_mean :
    (∀ ts, avg_time ts = circularMeanTime_spec ts) ∧
    (∀ ts : List (Option Time),
       avg_time ts = none ↔
         (ts.filterMap id = [] ∨
          (sinSum (ts.filterMap id) = 0 ∧ cosSum (ts.filterMap id) = 0))) ∧
    avg_time [some ⟨23, 58⟩, some ⟨0, 2⟩] = some ⟨0, 0⟩ := by
  refine ⟨?_, ?_, ?_⟩
  · intro ts
    unfold avg_time circularMeanTime_spec
    by_cases h1 : ts.filterMap id = []
    · rw [if_pos h1, if_pos h1]
    · rw [if_neg h1, if_neg h1]
      by_cases h2 : sinSum (ts.filterMap id) = 0 ∧ cosSum (ts.filterMap id) = 0
      · rw [if_pos h2, if_pos h2]
      · rw [if_neg h2, if_neg h2]
        have hlp : (0 : ℝ) < ((ts.filterMap id).length : ℝ) := by
          have h3 : 0 < (ts.filterMap id).length := List.length_pos.mpr h1
          exact_mod_cast h3
        rw [atan2_div_pos _ _ _ hlp]
  · intro ts
    unfold avg_time
    by_cases h1 : ts.filterMap id = []
    · simp [h1]
    · by_cases h2 : sinSum (ts.filterMap id) = 0 ∧ cosSum (ts.filterMap id) = 0
      · rw [if_neg h1, if_pos h2]
        exact iff_of_true rfl (Or.inr h2)
      · rw [if_neg h1, if_neg h2]
        exact iff_of_false (by simp) (by tauto)
  · have e1 : (([some ⟨23, 58⟩, some ⟨0, 2⟩] : List (Option Time)).filterMap id) =
        [⟨23, 58⟩, ⟨0, 2⟩] := by decide
    have hang : timeAngle ⟨23, 58⟩ = 2 * Real.pi - timeAngle ⟨0, 2⟩ := by
      unfold timeAngle timeMinutes
      norm_num
      ring
    have hsin : sinSum [(⟨23, 58⟩ : Time), ⟨0, 2⟩] = 0 := by
      simp only [sinSum, List.map_cons, List.map_nil, List.sum_cons, List.sum_nil]
      rw [hang, Real.sin_two_pi_sub]
      ring
    have hcos : cosSum [(⟨23, 58⟩ : Time), ⟨0, 2⟩] = 2 * Real.cos (timeAngle ⟨0, 2⟩) := by
      simp only [cosSum, List.map_cons, List.map_nil, List.sum_cons, List.sum_nil]
      rw [hang, Real.cos_two_pi_sub]
      ring
    have hcpos : 0 < Real.cos (timeAngle ⟨0, 2⟩) := by
      apply Real.cos_pos_of_mem_Ioo
      constructor
      · have h1 := Real.pi_pos
        have h2 := timeAngle_nonneg ⟨0, 2⟩
        linarith
      · show timeAngle ⟨0, 2⟩ < Real.pi / 2
        unfold timeAngle timeMinutes
        norm_num
        nlinarith [Real.pi_pos]
    have hz : ¬ (sinSum [(⟨23, 58⟩ : Time), ⟨0, 2⟩] = 0 ∧
        cosSum [(⟨23, 58⟩ : Time), ⟨0, 2⟩] = 0) := by
      rintro ⟨_, hcz⟩
      rw [hcos] at hcz
      nlinarith
    unfold avg_time
    rw [e1, if_neg (by decide), if_neg hz, hsin, hcos]
    have hlen : ((([(⟨23, 58⟩ : Time), ⟨0, 2⟩]).length : ℕ) : ℝ) = 2 := by norm_num
    rw [hlen, zero_div]
    have hdiv : 2 * Real.cos (timeAngle ⟨0, 2⟩) / 2 = Real.cos (timeAngle ⟨0, 2⟩) := by ring
    rw [hdiv, atan2_zero_nonneg _ (le_of_lt hcpos), normAngle_of_nonneg le_rfl]
    rw [angleToTime_of_minutes 0 0 (by norm_num) (by norm_num) 0 (by norm_num)]

set_option maxRecDepth 40000 in
/-- C5 counterexample: a week whose only record has all-null fields is
    *not* excluded from `compute_overall_stats`'s input — its frame
    survives `_filter_non_empty_frames` (because `total_drinks` is the
    non-null number `0.0`) and contributes the zero to both the overall
    `total_drinks` mean and the `total_drinks_median` column, contrary
    to the claim that it contributes no zero/null values. -/
theorem C5_counterexample :
    filter_non_empty_frames ((compute_weekly_stats allNullDf).map Prod.snd) =
      (compute_weekly_stats allNullDf).map Prod.snd ∧
    (compute_weekly_stats allNullDf).map Prod.snd = [allNullWeekFrame] ∧
    (compute_overall_stats fbNone (compute_weekly_stats allNullDf)).map
        (fun f => alookup f "total_drinks") = .ok (some (Cell.cnum 0)) ∧
    (compute_overall_stats fbNone (compute_weekly_stats allNullDf)).map
        (fun f => alookup f "total_drinks_median") = .ok (some (Cell.cnum 0)) := by
  have hds : drinksSum (allNullDf.filter fun r => r.week = "0201-0207") = 0 := by
    norm_num [drinksSum, allNullDf, alookup]
  refine ⟨rfl, rfl, ?_, ?_⟩
  · have h1 : (compute_overall_stats fbNone (compute_weekly_stats allNullDf)).map
        (fun f => alookup f "total_drinks") =
        .ok (some (Cell.cnum
          ((((drinksSum (allNullDf.filter fun r => r.week = "0201-0207") : ℚ) : ℝ) + 0) /
            ((1 : ℕ) : ℝ)))) := by rfl
    rw [h1, hds]
    norm_num
  · have h1 : (compute_overall_stats fbNone (compute_weekly_stats allNullDf)).map
        (fun f => alookup f "total_drinks_median") =
        .ok (some (Cell.cnum
          ((drinksSum (allNullDf.filter fun r => r.week = "0201-0207") : ℚ) : ℝ))) := by rfl
    rw [h1, hds]
    norm_num

lemma alookup_mem {α : Type} {l : List (String × α)} {k : String} {v : α}
    (h : alookup l k = some v) : (k, v) ∈ l := by
  induction l with
  | nil => simp [alookup] at h
  | cons kv rest ih =>
      unfold alookup at h
      split at h
      · rename_i heq
        injection h with h'
        subst h'
        have hkv : (k, kv.2) = kv := Prod.ext_iff.mpr ⟨heq.symm, rfl⟩
        rw [hkv]
        exact List.mem_cons_self _ _
      · right
        exact ih h

lemma drinksSum_allnull {wk : List Rec}
    (h : ∀ r ∈ wk, ∀ kv ∈ r.fields, kv.2 = Value.vnone) : drinksSum wk = 0 := by
  induction wk with
  | nil => rfl
  | cons r rest ih =>
      unfold drinksSum at ih ⊢
      simp only [List.map_cons, List.sum_cons]
      have hr : (match alookup r.fields "alcohol_drinks" with
          | some (Value.vnum q) => q
          | _ => 0) = (0 : ℚ) := by
        cases hl : alookup r.fields "alcohol_drinks" with
        | none => rfl
        | some v =>
            have hv := h r (by simp) _ (alookup_mem hl)
            simp at hv
            rw [hv]
      rw [hr, ih (fun r hr => h r (by simp [hr]))]
      norm_num

/-- C5 (amended): `_filter_non_empty_frames` keeps exactly the frames
    with some non-null cell; but the statistics frame of a week whose
    records have only null fields is never entirely null — its
    `total_drinks` cell is the number `0.0` — so such a week is *not*
    excluded from `compute_overall_stats`'s input, and (per the
    counterexample) its zero propagates into the overall `total_drinks`
    mean and median. -/
theorem C5_amended :
    (∀ (fs : List Frame) (f : Frame),
        f ∈ filter_non_empty_frames fs ↔ f ∈ fs ∧ f.any (fun kv => ¬ cellIsNull kv.2)) ∧
    (∀ df : List Rec, (∀ r ∈ df, ∀ kv ∈ r.fields, kv.2 = Value.vnone) →
        filter_non_empty_frames ((compute_weekly_stats df).map Prod.snd) =
          (compute_weekly_stats df).map Prod.snd ∧
        ∀ p ∈ compute_weekly_stats df, alookup p.2 "total_drinks" = some (Cell.cnum 0)) := by
  constructor
  · intro fs f
    unfold filter_non_empty_frames
    rw [List.mem_filter]
  · intro df hnull
    have hframe : ∀ p ∈ compute_weekly_stats df,
        alookup p.2 "total_drinks" = some (Cell.cnum 0) := by
      intro p hp
      unfold compute_weekly_stats at hp
      split at hp
      · simp at hp
      · obtain ⟨l, _, hpl⟩ := List.mem_map.mp hp
        have hwk : ∀ r ∈ df.filter (fun r => r.week = l), ∀ kv ∈ r.fields,
            kv.2 = Value.vnone := by
          intro r hr
          exact hnull r (List.mem_of_mem_filter hr)
        have hds := drinksSum_allnull hwk
        rw [← hpl]
        show alookup (weekFrame df (df.filter fun r => r.week = l)) "total_drinks" = _
        unfold weekFrame
        unfold alookup
        rw [if_pos rfl, hds]
        norm_num
    refine ⟨?_, hframe⟩
    unfold filter_non_empty_frames
    rw [List.filter_eq_self]
    intro f hf
    obtain ⟨p, hp, hpf⟩ := List.mem_map.mp hf
    have := hframe p hp
    rw [← hpf]
    have hmem := alookup_mem this
    rw [List.any_eq_true]
    exact ⟨("total_drinks", Cell.cnum 0), hmem, by simp [cellIsNull]⟩

/-- C5 witness: the amended theorem applied to the concrete all-null
    week. -/
theorem C5_amended_w : alookup allNullWeekFrame "total_drinks" = some (Cell.cnum 0) := by
  have h := (C5_amended.2 allNullDf (by decide)).2 ("0201-0207", allNullWeekFrame)
    (by rw [show compute_weekly_stats allNullDf = [("0201-0207", allNullWeekFrame)] from rfl]
        exact List.mem_singleton.mpr rfl)
  exact h

set_option maxRecDepth 40000 in
/-- C8: end-to-end drinks aggregation — for the two-week record table
    with drink counts [1,1,1] and [2,2,3], `compute_weekly_stats` yields
    `total_drinks` 3 and 7 (absent treated as zero), and
    `compute_overall_stats` on those weekly frames yields
    `total_drinks_median` 5. -/
theorem C8_drinks_end_to_end :
    (alookup (compute_weekly_stats drinksDf) "0101-0107").map
        (fun f => alookup f "total_drinks") = some (some (Cell.cnum 3)) ∧
    (alookup (compute_weekly_stats drinksDf) "0108-0114").map
        (fun f => alookup f "total_drinks") = some (some (Cell.cnum 7)) ∧
    (compute_overall_stats fbNone (compute_weekly_stats drinksDf)).map
        (fun f => alookup f "total_drinks_median") = .ok (some (Cell.cnum 5)) := by
  have hfA : drinksDf.filter (fun r => r.week = "0101-0107") =
      [⟨⟨2025, 1, 1⟩, "0101-0107", [("alcohol_drinks", .vnum 1)]⟩,
       ⟨⟨2025, 1, 2⟩, "0101-0107", [("alcohol_drinks", .vnum 1)]⟩,
       ⟨⟨2025, 1, 3⟩, "0101-0107", [("alcohol_drinks", .vnum 1)]⟩] := by decide
  have hfB : drinksDf.filter (fun r => r.week = "0108-0114") =
      [⟨⟨2025, 1, 8⟩, "0108-0114", [("alcohol_drinks", .vnum 2)]⟩,
       ⟨⟨2025, 1, 9⟩, "0108-0114", [("alcohol_drinks", .vnum 2)]⟩,
       ⟨⟨2025, 1, 10⟩, "0108-0114", [("alcohol_drinks", .vnum 3)]⟩] := by decide
  have hdsA : drinksSum (drinksDf.filter fun r => r.week = "0101-0107") = 3 := by
    rw [hfA]
    norm_num [drinksSum, alookup]
  have hdsB : drinksSum (drinksDf.filter fun r => r.week = "0108-0114") = 7 := by
    rw [hfB]
    norm_num [drinksSum, alookup]
  refine ⟨?_, ?_, ?_⟩
  · have h1 : (alookup (compute_weekly_stats drinksDf) "0101-0107").map
        (fun f => alookup f "total_drinks") =
        some (some (Cell.cnum
          ((drinksSum (drinksDf.filter fun r => r.week = "0101-0107") : ℚ) : ℝ))) := by rfl
    rw [h1, hdsA]
    norm_num
  · have h1 : (alookup (compute_weekly_stats drinksDf) "0108-0114").map
        (fun f => alookup f "total_drinks") =
        some (some (Cell.cnum
          ((drinksSum (drinksDf.filter fun r => r.week = "0108-0114") : ℚ) : ℝ))) := by rfl
    rw [h1, hdsB]
    norm_num
  · have h1 : (compute_overall_stats fbNone (compute_weekly_stats drinksDf)).map
        (fun f => alookup f "total_drinks_median") =
        .ok (some
          (match pyMedianR
              [((drinksSum (drinksDf.filter fun r => r.week = "0101-0107") : ℚ) : ℝ),
               ((drinksSum (drinksDf.filter fun r => r.week = "0108-0114") : ℚ) : ℝ)] with
           | some m => Cell.cnum m
           | none => Cell.cnull)) := by rfl
    rw [hdsA, hdsB] at h1
    have hmed : pyMedianR [(((3 : ℚ) : ℝ)), (((7 : ℚ) : ℝ))] = some 5 := by
      have hle : (((3 : ℚ) : ℝ)) ≤ (((7 : ℚ) : ℝ)) := by norm_num
      simp only [pyMedianR, rSorted, rInsert, if_pos hle]
      norm_num
    rw [hmed] at h1
    rw [h1]

lemma upsert_keys {f : Frame} {k : String} {v : Cell} {q : String}
    (h : q ∈ (upsert f k v).map Prod.fst) : q ∈ f.map Prod.fst ∨ q = k := by
  unfold upsert at h
  split at h
  · obtain ⟨kv, hkv, heq⟩ := List.mem_map.mp h
    obtain ⟨kv0, hkv0, heq0⟩ := List.mem_map.mp hkv
    by_cases hc : kv0.1 = k
    · right
      rw [← heq, ← heq0, if_pos hc]
    · left
      rw [← heq, ← heq0, if_neg hc]
      exact List.mem_map.mpr ⟨kv0, hkv0, rfl⟩
  · rw [List.map_append] at h
    rcases List.mem_append.mp h with h1 | h2
    · exact Or.inl h1
    · right
      simpa using h2

lemma foldl_upsert_keys (g : String → Cell) :
    ∀ (cols : List String) (acc : Frame) (q : String),
      q ∈ ((cols.foldl (fun a c => upsert a c (g c)) acc).map Prod.fst) →
      q ∈ acc.map Prod.fst ∨ q ∈ cols := by
  intro cols
  induction cols with
  | nil => intro acc q h; exact Or.inl h
  | cons c cs ih =>
      intro acc q h
      rw [List.foldl_cons] at h
      rcases ih (upsert acc c (g c)) q h with h1 | h2
      · rcases upsert_keys h1 with ha | hb
        · exact Or.inl ha
        · exact Or.inr (by rw [hb]; exact List.mem_cons_self _ _)
      · exact Or.inr (List.mem_cons_of_mem _ h2)

lemma overallTimeStep_keys {pdp : String → Option Time} {valid : List Frame}
    {acc : Frame} {c : String} {F : Frame}
    (h : overallTimeStep pdp valid acc c = .ok F) :
    ∀ q ∈ F.map Prod.fst, q ∈ acc.map Prod.fst ∨ q = c := by
  intro q hq
  unfold overallTimeStep at h
  cases hE : ((colCells valid c).filterMap cellStr).mapM (fun s =>
      match pdp s with
      | some t => Except.ok t
      | none => Except.error ("Unknown datetime string format: " ++ s)) with
  | error e =>
      rw [hE] at h
      exact absurd h (by simp [Bind.bind, Except.bind])
  | ok ts =>
      rw [hE] at h
      simp only [Bind.bind, Except.bind] at h
      by_cases hts : ts = []
      · rw [if_pos hts] at h
        injection h with h'
        subst h'
        exact Or.inl hq
      · rw [if_neg hts] at h
        cases havg : avg_time (ts.map some) with
        | none =>
            rw [havg] at h
            injection h with h'
            subst h'
            exact Or.inl hq
        | some t =>
            rw [havg] at h
            injection h with h'
            subst h'
            exact upsert_keys hq

lemma foldlM_timeStep_keys {pdp : String → Option Time} {valid : List Frame} :
    ∀ (tc : List String) (acc : Frame) (F : Frame),
      tc.foldlM (overallTimeStep pdp valid) acc = .ok F →
      ∀ q ∈ F.map Prod.fst, q ∈ acc.map Prod.fst ∨ q ∈ tc := by
  intro tc
  induction tc with
  | nil =>
      intro acc F h q hq
      injection h with h'
      subst h'
      exact Or.inl hq
  | cons c cs ih =>
      intro acc F h q hq
      rw [List.foldlM_cons] at h
      cases hstep : overallTimeStep pdp valid acc c with
      | error e =>
          rw [hstep] at h
          exact absurd h (by simp [Bind.bind, Except.bind])
      | ok acc' =>
          rw [hstep] at h
          simp only [Bind.bind, Except.bind] at h
          rcases ih acc' F h q hq with h1 | h2
          · rcases overallTimeStep_keys hstep q h1 with ha | hb
            · exact Or.inl ha
            · exact Or.inr (by rw [hb]; exact List.mem_cons_self _ _)
          · exact Or.inr (List.mem_cons_of_mem _ h2)

/-- C7 counterexample: a weekly-stats map with one recognized time
    column (`bed_time_avg`, holding the colon-bearing string
    `"02:00am"`) gets its circular mean, but the overall row consists of
    that single column only — no median variant of the time column is
    emitted, contrary to the claim. -/
theorem C7_counterexample :
    compute_overall_stats pdp2am timeColWmap = .ok [("bed_time_avg", Cell.cstr "02:00am")] := by
  have havg : avg_time [some ⟨2, 0⟩] = some ⟨2, 0⟩ :=
    avg_time_single _ (by norm_num) (by norm_num)
  have hfmt : fmt12 ⟨2, 0⟩ = "02:00am" := by decide
  simp [compute_overall_stats, overallTimeStep, timeColWmap, pdp2am, filter_non_empty_frames,
    combinedCols, colCells, alookup, upsert, cellIsNull, cellIsNum, cellStr, cellHasColonStr,
    havg, hfmt, List.foldlM, List.mapM, List.mapM.loop, Except.bind, Bind.bind, pure, Except.pure]

/-- C7 (amended): every column recognized as holding formatted
    time-of-day strings receives the circular mean of its reparsed
    values, but `compute_overall_stats` emits no median variant for time
    columns — the only column it ever adds beyond the input columns is
    the numeric `total_drinks_median`.  (Median-variant time columns
    appear in the overall row only when the input weekly frames already
    contain `*_median` columns, which are then time columns in their own
    right.) -/
theorem C7_time_columns_amended :
    (∀ (pdp : String → Option Time) (w : List (String × Frame)) (F : Frame),
        compute_overall_stats pdp w = .ok F →
        ∀ q ∈ F.map Prod.fst,
          q ∈ combinedCols (filter_non_empty_frames (w.map Prod.snd)) ∨
          q = "total_drinks_median") ∧
    compute_overall_stats pdp3am timeColWmap2 =
      .ok [("wake_up_time_avg", Cell.cstr "03:00am")] := by
  constructor
  · intro pdp w F h q hq
    unfold compute_overall_stats at h
    by_cases hw : w.isEmpty = true
    · rw [if_pos hw] at h
      injection h with h'
      subst h'
      exact absurd hq (by simp)
    · rw [if_neg hw] at h
      by_cases hv : (filter_non_empty_frames (w.map fun kv => kv.2)).isEmpty = true
      · rw [if_pos hv] at h
        injection h with h'
        subst h'
        exact absurd hq (by simp)
      · rw [if_neg hv] at h
        rcases foldlM_timeStep_keys _ _ _ h q hq with h1 | h2
        · -- q is a key of the numeric/median part
          split at h1
          · rcases upsert_keys h1 with ha | hb
            · rcases foldl_upsert_keys _ _ _ _ ha with hn | hc
              · exact absurd hn (by simp)
              · exact Or.inl (by
                  have := List.mem_filter.mp hc
                  simpa using this.1)
            · exact Or.inr hb
          · rcases foldl_upsert_keys _ _ _ _ h1 with hn | hc
            · exact absurd hn (by simp)
            · exact Or.inl (by
                have := List.mem_filter.mp hc
                simpa using this.1)
        · -- q is one of the recognized time columns
          exact Or.inl (by
            have := List.mem_filter.mp h2
            simpa using this.1)
  · have havg : avg_time [some ⟨3, 0⟩] = some ⟨3, 0⟩ :=
      avg_time_single _ (by norm_num) (by norm_num)
    have hfmt : fmt12 ⟨3, 0⟩ = "03:00am" := by decide
    simp [compute_overall_stats, overallTimeStep, timeColWmap2, pdp3am, filter_non_empty_frames,
      combinedCols, colCells, alookup, upsert, cellIsNull, cellIsNum, cellStr, cellHasColonStr,
      havg, hfmt, List.foldlM, List.mapM, List.mapM.loop, Except.bind, Bind.bind, pure, Except.pure]

/-- C7 witness: the amended theorem applied to the concrete one-column
    weekly-stats map. -/
theorem C7_w :
    "wake_up_time_avg" ∈ combinedCols (filter_non_empty_frames (timeColWmap2.map Prod.snd)) ∨
      "wake_up_time_avg" = "total_drinks_median" :=
  C7_time_columns_amended.1 pdp3am timeColWmap2 _ C7_time_columns_amended.2 _ (by decide)

set_option maxRecDepth 40000 in
/-- C9: the placeholder token `'.'` in the drinks-count field parses to
    `0.0` (so a placeholder day counts as zero in the weekly
    `total_drinks` sum), while the same token in every other numeric
    field parses to null and is excluded from that field's statistics —
    in the concrete log, drinks `[., 2]` and mood `[., 4]` give
    `total_drinks = 2` and `mood_avg = 4`. -/
theorem C9_placeholder_drinks :
    (∀ fb : String → Option Time,
        parseTokenE fb (some "alcohol_drinks") "." = .ok (.vnum 0)) ∧
    (∀ (fb : String → Option Time) (c : String), c ∈ NUMERIC_COLS →
        c ≠ "alcohol_drinks" → parseTokenE fb (some c) "." = .ok .vnone) ∧
    parse_log fbNone placeholderLines = .ok placeholderRecs ∧
    (alookup (compute_weekly_stats placeholderRecs) "0101-0102").map
        (fun f => alookup f "total_drinks") = some (some (Cell.cnum 2)) ∧
    (alookup (compute_weekly_stats placeholderRecs) "0101-0102").map
        (fun f => alookup f "mood_avg") = some (some (Cell.cnum 4)) := by
  refine ⟨fun fb => rfl, ?_, by decide, ?_, ?_⟩
  · intro fb c hc hne
    fin_cases hc <;> first | exact absurd rfl hne | rfl
  · have hf : placeholderRecs.filter (fun r => r.week = "0101-0102") = placeholderRecs := by
      decide
    have hds : drinksSum (placeholderRecs.filter fun r => r.week = "0101-0102") = 2 := by
      rw [hf]
      norm_num [drinksSum, placeholderRecs, alookup]
    have h1 : (alookup (compute_weekly_stats placeholderRecs) "0101-0102").map
        (fun f => alookup f "total_drinks") =
        some (some (Cell.cnum
          ((drinksSum (placeholderRecs.filter fun r => r.week = "0101-0102") : ℚ) : ℝ))) := by
      rfl
    rw [h1, hds]
    norm_num
  · have h1 : (alookup (compute_weekly_stats placeholderRecs) "0101-0102").map
        (fun f => alookup f "mood_avg") =
        some (some (Cell.cnum ((ratMean [(4 : ℚ)] : ℚ) : ℝ))) := by rfl
    rw [h1]
    norm_num [ratMean]

/-- C9 witness: the null-placeholder behaviour at the `mood` column. -/
theorem C9_w : parseTokenE fbNone (some "mood") "." = .ok .vnone :=
  C9_placeholder_drinks.2.1 fbNone "mood" (by decide) (by decide)
